import Mathlib

set_option maxHeartbeats 1000000

/-!
Shallow embedding of the generation-state management engine of the
product-photography studio app (the main `App` component in
`src/unnamed/part_000`, lines 700-1403, together with its type definitions
and initial-state constants, lines 10-284).

Modelling conventions:
- TypeScript `string | null` becomes `Option String`; JavaScript truthiness
  of such a value (`if (url)`) is `strTruthy` (both `null` and the empty
  string are falsy).
- The undo/redo cursor `currentIndex` is an `Int` (the sentinel `-1` matters).
- `File` objects, DOM handles and rendering are dropped; natural image
  dimensions produced by asynchronous image decoding enter the model as
  explicit parameters of the corresponding transitions.
- React state updates batched inside one handler are one state-transition
  function; the component's two `useEffect` synchronizations (error clearing,
  lines 769-778, and canvas-selection sync, lines 784-792) are re-run after
  every transition by `runEffects`, the first one only when one of its
  dependencies changed, exactly as React does.
-/

namespace ProductPhotography

/-- Source `type Mode = 'background' | 'ai-model'` (line 11). -/
inductive Mode
  | background
  | aiModel
deriving DecidableEq

/-- Source `type BackgroundSubMode = 'color' | 'scene'` (line 12). -/
inductive BackgroundSubMode
  | color
  | scene
deriving DecidableEq

/-- Source `type ServiceBackgroundSubMode = 'color' | 'scene' | 'transparent'` (line 13). -/
inductive ServiceBackgroundSubMode
  | color
  | scene
  | transparent
deriving DecidableEq

/-- Source `type Gender = 'Any' | 'Male' | 'Female'` (line 14). -/
inductive Gender
  | any
  | male
  | female
deriving DecidableEq

/-- Source `type ModelSource = 'ai' | 'custom'` (line 15). -/
inductive ModelSource
  | ai
  | custom
deriving DecidableEq

/-- Source `type LoadingStep = '' | 'Generating...' | 'Blending concepts...'` (line 16);
the empty string (JS-falsy) is `idle`. -/
inductive LoadingStep
  | idle
  | generating
  | blending
deriving DecidableEq

/-- Source `type AppTab = 'settings' | 'history'` (line 17). -/
inductive AppTab
  | settings
  | history
deriving DecidableEq

/-- The five canonical feature identifiers (`keyof GenerationStacks`, lines 82-88). -/
inductive FeatureKey
  | backgroundColor
  | backgroundScene
  | backgroundTransparent
  | aiModelAi
  | aiModelCustom
deriving DecidableEq, Fintype

/-- JS truthiness of a `string | null` value: `null` and `''` are falsy. -/
def strTruthy : Option String → Bool
  | none => false
  | some s => s != ""

/-- Source `interface ImageState` (lines 19-24); the `File` handle is dropped. -/
structure ImageState where
  url : Option String
  originalWidth : Nat
  originalHeight : Nat
deriving DecidableEq

/-- Source `interface PromptBuilderSettings` (lines 25-29). -/
structure PromptBuilderSettings where
  style : String
  composition : String
  lighting : String
deriving DecidableEq

/-- Source `interface OperationStatus` (lines 30-33). -/
structure OperationStatus where
  isLoading : LoadingStep
  error : Option String
deriving DecidableEq

/-- Source `interface BackgroundStatuses` (lines 35-39). -/
structure BackgroundStatuses where
  color : OperationStatus
  scene : OperationStatus
  transparent : OperationStatus
deriving DecidableEq

/-- Source `interface AiModelStatuses` (lines 41-44). -/
structure AiModelStatuses where
  ai : OperationStatus
  custom : OperationStatus
deriving DecidableEq

/-- Source `interface AiModelPromptLoading` (lines 45-48). -/
structure AiModelPromptLoading where
  ai : Bool
  custom : Bool
deriving DecidableEq

/-- Source `interface GenerationStateSnapshot` (lines 51-67).  The source field
`aspectRatio` is rendered `aspectRatioVal` here. -/
structure GenerationStateSnapshot where
  mode : Mode
  backgroundSubMode : BackgroundSubMode
  modelSource : ModelSource
  backgroundColor : String
  scenePrompt : String
  aspectRatioVal : String
  promptEnhancer : Bool
  aiGeneratedPrompt : String
  yourModelPrompt : String
  gender : Gender
  promptBuilder : PromptBuilderSettings
  aiGeneratedPromptEnhancer : Bool
  yourModelPromptEnhancer : Bool
  productImageUrl : Option String
  modelImageUrl : Option String
deriving DecidableEq

/-- Status of a `SessionGeneration` record: `'loading' | 'done'` (line 73). -/
inductive RecordStatus
  | loading
  | done
deriving DecidableEq

/-- Source `interface SessionGeneration` (lines 70-76). -/
structure SessionGeneration where
  id : Nat
  src : Option String
  status : RecordStatus
  featureKey : FeatureKey
  snapshot : GenerationStateSnapshot
deriving DecidableEq

/-- Source `interface GenerationStack` (lines 78-81). -/
structure GenerationStack where
  images : List String
  currentIndex : Int
deriving DecidableEq

/-- Source `type GenerationStacks` (lines 82-88): one stack per feature key. -/
structure GenerationStacks where
  backgroundColor : GenerationStack
  backgroundScene : GenerationStack
  backgroundTransparent : GenerationStack
  aiModelAi : GenerationStack
  aiModelCustom : GenerationStack
deriving DecidableEq

/-- Lookup `generationStacks[featureKey]`. -/
def GenerationStacks.get (g : GenerationStacks) : FeatureKey → GenerationStack
  | .backgroundColor => g.backgroundColor
  | .backgroundScene => g.backgroundScene
  | .backgroundTransparent => g.backgroundTransparent
  | .aiModelAi => g.aiModelAi
  | .aiModelCustom => g.aiModelCustom

/-- Update `{...stacks, [featureKey]: st}`. -/
def GenerationStacks.set (g : GenerationStacks) (k : FeatureKey) (st : GenerationStack) :
    GenerationStacks :=
  match k with
  | .backgroundColor => { g with backgroundColor := st }
  | .backgroundScene => { g with backgroundScene := st }
  | .backgroundTransparent => { g with backgroundTransparent := st }
  | .aiModelAi => { g with aiModelAi := st }
  | .aiModelCustom => { g with aiModelCustom := st }

/-- Lookup `backgroundStatuses[subMode]`. -/
def BackgroundStatuses.get (b : BackgroundStatuses) : ServiceBackgroundSubMode → OperationStatus
  | .color => b.color
  | .scene => b.scene
  | .transparent => b.transparent

/-- Update `{...backgroundStatuses, [subMode]: st}`. -/
def BackgroundStatuses.set (b : BackgroundStatuses) (m : ServiceBackgroundSubMode)
    (st : OperationStatus) : BackgroundStatuses :=
  match m with
  | .color => { b with color := st }
  | .scene => { b with scene := st }
  | .transparent => { b with transparent := st }

/-- Lookup `aiModelStatuses[source]`. -/
def AiModelStatuses.get (a : AiModelStatuses) : ModelSource → OperationStatus
  | .ai => a.ai
  | .custom => a.custom

/-- Update `{...aiModelStatuses, [source]: st}`. -/
def AiModelStatuses.set (a : AiModelStatuses) (m : ModelSource) (st : OperationStatus) :
    AiModelStatuses :=
  match m with
  | .ai => { a with ai := st }
  | .custom => { a with custom := st }

/-- The whole mutable state of the `App` component (lines 700-740):
every `useState` cell plus the `generationIdCounter` ref.  The source field
`aspectRatio` is rendered `aspectRatioVal`.  The prompt-suggestion loading
flags are carried along (set by start-over) but the prompt-suggestion flow
itself (`handlePromptGen`, lines 978-1028) is out of the claims' scope. -/
structure AppState where
  mode : Mode
  backgroundSubMode : BackgroundSubMode
  uploadKey : Nat
  activeTab : AppTab
  isMobileHistoryOpen : Bool
  newHistoryNotification : Bool
  productImage : ImageState
  modelImage : ImageState
  generationStacks : GenerationStacks
  sessionGenerations : List SessionGeneration
  activeGenerationId : Option Nat
  generationIdCounter : Nat
  backgroundStatuses : BackgroundStatuses
  aiModelStatuses : AiModelStatuses
  isScenePromptLoading : Bool
  isAiModelPromptLoading : AiModelPromptLoading
  backgroundColor : String
  scenePrompt : String
  aspectRatioVal : String
  promptEnhancer : Bool
  modelSource : ModelSource
  aiGeneratedPrompt : String
  yourModelPrompt : String
  gender : Gender
  promptBuilder : PromptBuilderSettings
  aiGeneratedPromptEnhancer : Bool
  yourModelPromptEnhancer : Bool
deriving DecidableEq

/-- Initial-state constants (lines 253-284). -/
def initialProductImage : ImageState := { url := none, originalWidth := 0, originalHeight := 0 }

def initialModelImage : ImageState := { url := none, originalWidth := 0, originalHeight := 0 }

def initialPromptBuilder : PromptBuilderSettings :=
  { style := "Photorealistic", composition := "Medium Shot", lighting := "Natural Light" }

def initialOpStatus : OperationStatus := { isLoading := .idle, error := none }

def initialBackgroundStatuses : BackgroundStatuses :=
  { color := initialOpStatus, scene := initialOpStatus, transparent := initialOpStatus }

def initialAiModelStatuses : AiModelStatuses :=
  { ai := initialOpStatus, custom := initialOpStatus }

def initialAiModelPromptLoading : AiModelPromptLoading := { ai := false, custom := false }

def initialGenerationStack : GenerationStack := { images := [], currentIndex := -1 }

def initialGenerationStacks : GenerationStacks :=
  { backgroundColor := initialGenerationStack
    backgroundScene := initialGenerationStack
    backgroundTransparent := initialGenerationStack
    aiModelAi := initialGenerationStack
    aiModelCustom := initialGenerationStack }

/-- The state after the initial render (`useState` initializers, lines 702-740). -/
def initialAppState : AppState :=
  { mode := .background
    backgroundSubMode := .color
    uploadKey := 0
    activeTab := .settings
    isMobileHistoryOpen := false
    newHistoryNotification := false
    productImage := initialProductImage
    modelImage := initialModelImage
    generationStacks := initialGenerationStacks
    sessionGenerations := []
    activeGenerationId := none
    generationIdCounter := 0
    backgroundStatuses := initialBackgroundStatuses
    aiModelStatuses := initialAiModelStatuses
    isScenePromptLoading := false
    isAiModelPromptLoading := initialAiModelPromptLoading
    backgroundColor := "#f0f0f0"
    scenePrompt := ""
    aspectRatioVal := "1:1"
    promptEnhancer := true
    modelSource := .ai
    aiGeneratedPrompt := ""
    yourModelPrompt := ""
    gender := .any
    promptBuilder := initialPromptBuilder
    aiGeneratedPromptEnhancer := true
    yourModelPromptEnhancer := true }

/-- The `isTransparent`/`effectiveSubMode` computation repeated at
lines 756-757, 771-772, 953-954, 1033-1034, 1143-1144. -/
def effectiveServiceSubMode (subMode : BackgroundSubMode) (bgColor : String) :
    ServiceBackgroundSubMode :=
  if subMode = .color ∧ bgColor = "transparent" then .transparent
  else match subMode with
    | .color => .color
    | .scene => .scene

/-- Feature key `background-${effectiveSubMode}`. -/
def backgroundKeyOf : ServiceBackgroundSubMode → FeatureKey
  | .color => .backgroundColor
  | .scene => .backgroundScene
  | .transparent => .backgroundTransparent

/-- Feature key `ai-model-${modelSource}`. -/
def aiModelKeyOf : ModelSource → FeatureKey
  | .ai => .aiModelAi
  | .custom => .aiModelCustom

/-- The pure feature-key derivation shared by `getCurrentFeatureKey`
(lines 754-761) and the snapshot round-trip. -/
def deriveFeatureKey (mode : Mode) (subMode : BackgroundSubMode) (bgColor : String)
    (source : ModelSource) : FeatureKey :=
  match mode with
  | .background => backgroundKeyOf (effectiveServiceSubMode subMode bgColor)
  | .aiModel => aiModelKeyOf source

/-- Source `getCurrentFeatureKey` (lines 754-761).  The ref `currentFeatureKeyRef`
(lines 763-767) is kept in sync with this value by an effect, so asynchronous
completion handlers reading the ref read exactly this function of the
then-current state. -/
def getCurrentFeatureKey (s : AppState) : FeatureKey :=
  deriveFeatureKey s.mode s.backgroundSubMode s.backgroundColor s.modelSource

/-- The feature key a snapshot's control values derive to. -/
def snapshotFeatureKey (sn : GenerationStateSnapshot) : FeatureKey :=
  deriveFeatureKey sn.mode sn.backgroundSubMode sn.backgroundColor sn.modelSource

/-- Status slot of a feature key (`backgroundStatuses` for the three
background keys, `aiModelStatuses` for the two ai-model keys). -/
def getStatusFor (s : AppState) : FeatureKey → OperationStatus
  | .backgroundColor => s.backgroundStatuses.color
  | .backgroundScene => s.backgroundStatuses.scene
  | .backgroundTransparent => s.backgroundStatuses.transparent
  | .aiModelAi => s.aiModelStatuses.ai
  | .aiModelCustom => s.aiModelStatuses.custom

/-- Write the status slot of a feature key. -/
def setStatusFor (s : AppState) (k : FeatureKey) (st : OperationStatus) : AppState :=
  match k with
  | .backgroundColor => { s with backgroundStatuses := s.backgroundStatuses.set .color st }
  | .backgroundScene => { s with backgroundStatuses := s.backgroundStatuses.set .scene st }
  | .backgroundTransparent =>
      { s with backgroundStatuses := s.backgroundStatuses.set .transparent st }
  | .aiModelAi => { s with aiModelStatuses := s.aiModelStatuses.set .ai st }
  | .aiModelCustom => { s with aiModelStatuses := s.aiModelStatuses.set .custom st }

/-- Source `currentStatus` (lines 1141-1149). -/
def currentStatus (s : AppState) : OperationStatus :=
  match s.mode with
  | .background => s.backgroundStatuses.get (effectiveServiceSubMode s.backgroundSubMode s.backgroundColor)
  | .aiModel => s.aiModelStatuses.get s.modelSource

/-- Source `canGenerate` (lines 1151-1159). -/
def canGenerate (s : AppState) : Bool :=
  if (currentStatus s).isLoading ≠ LoadingStep.idle then false
  else if s.mode = Mode.background ∧ strTruthy s.productImage.url then true
  else if s.mode = Mode.aiModel then
    match s.modelSource with
    | .ai => strTruthy s.productImage.url && s.aiGeneratedPrompt != ""
    | .custom =>
        strTruthy s.productImage.url && strTruthy s.modelImage.url && s.yourModelPrompt != ""
  else false

/-- JS `images.slice(0, e)` (a negative `e` counts from the end, and the
bound is clamped to the array length). -/
def jsSlice (l : List String) (e : Int) : List String :=
  if e < 0 then l.take (l.length + e).toNat else l.take e.toNat

/-- The stack update inside `recordNewGeneration` (lines 819-830): truncate
the redoable tail, append, move the cursor to the new last position. -/
def GenerationStack.push (st : GenerationStack) (imageUrl : String) : GenerationStack :=
  let newImages := jsSlice st.images (st.currentIndex + 1) ++ [imageUrl]
  { images := newImages, currentIndex := (newImages.length : Int) - 1 }

/-- The stack update inside `handleUndo` (lines 835-844). -/
def GenerationStack.undoStep (st : GenerationStack) : GenerationStack :=
  if st.currentIndex ≥ 0 then { st with currentIndex := st.currentIndex - 1 } else st

/-- The stack update inside `handleRedo` (lines 850-859). -/
def GenerationStack.redoStep (st : GenerationStack) : GenerationStack :=
  if st.currentIndex < (st.images.length : Int) - 1 then
    { st with currentIndex := st.currentIndex + 1 }
  else st

/-- Source `canUndo` for one stack (line 896). -/
def GenerationStack.canUndo (st : GenerationStack) : Bool :=
  decide (st.currentIndex ≥ 0)

/-- Source `canRedo` for one stack (line 897). -/
def GenerationStack.canRedo (st : GenerationStack) : Bool :=
  decide (st.currentIndex < (st.images.length : Int) - 1)

/-- The per-record update inside `recordNewGeneration` (lines 802-804):
mark the job's record done and store its image. -/
def completeRecord (imageUrl : String) (generationId : Nat) (gen : SessionGeneration) :
    SessionGeneration :=
  if gen.id = generationId then { gen with src := some imageUrl, status := .done } else gen

/-- Source `recordNewGeneration` (lines 796-831): the success-completion handler.
`isMobile` stands for the `window.innerWidth < 1024` probe at line 813. -/
def recordNewGeneration (s : AppState) (imageUrl : String) (generationId : Nat)
    (featureKey : FeatureKey) (isMobile : Bool) : AppState :=
  let s1 := { s with
    sessionGenerations := s.sessionGenerations.map (completeRecord imageUrl generationId) }
  let s2 :=
    if featureKey = getCurrentFeatureKey s then { s1 with activeGenerationId := some generationId }
    else s1
  let s3 :=
    if (isMobile ∧ ¬ s.isMobileHistoryOpen) ∨ (¬ isMobile ∧ s.activeTab ≠ AppTab.history) then
      { s2 with newHistoryNotification := true }
    else s2
  { s3 with
    generationStacks :=
      s3.generationStacks.set featureKey ((s3.generationStacks.get featureKey).push imageUrl) }

/-- Source `handleUndo` (lines 833-846). -/
def handleUndo (s : AppState) : AppState :=
  let featureKey := getCurrentFeatureKey s
  { s with
    generationStacks :=
      s.generationStacks.set featureKey (s.generationStacks.get featureKey).undoStep
    activeGenerationId := none }

/-- Source `handleRedo` (lines 848-861). -/
def handleRedo (s : AppState) : AppState :=
  let featureKey := getCurrentFeatureKey s
  { s with
    generationStacks :=
      s.generationStacks.set featureKey (s.generationStacks.get featureKey).redoStep
    activeGenerationId := none }

/-- Source `handleStartOver` (lines 863-893).  Note the `generationIdCounter` ref is
not reset. -/
def handleStartOver (s : AppState) : AppState :=
  { mode := .background
    backgroundSubMode := .color
    uploadKey := s.uploadKey + 1
    activeTab := .settings
    isMobileHistoryOpen := false
    newHistoryNotification := false
    productImage := initialProductImage
    modelImage := initialModelImage
    generationStacks := initialGenerationStacks
    sessionGenerations := []
    activeGenerationId := none
    generationIdCounter := s.generationIdCounter
    backgroundStatuses := initialBackgroundStatuses
    aiModelStatuses := initialAiModelStatuses
    isScenePromptLoading := false
    isAiModelPromptLoading := initialAiModelPromptLoading
    backgroundColor := "#f0f0f0"
    scenePrompt := ""
    aspectRatioVal := "1:1"
    promptEnhancer := true
    modelSource := .ai
    aiGeneratedPrompt := ""
    yourModelPrompt := ""
    gender := .any
    promptBuilder := initialPromptBuilder
    aiGeneratedPromptEnhancer := true
    yourModelPromptEnhancer := true }

/-- Source `handleSetMode` (lines 900-905). -/
def handleSetMode (s : AppState) (newMode : Mode) : AppState :=
  if s.mode ≠ newMode then { s with mode := newMode, activeGenerationId := none } else s

/-- Source `handleSetBackgroundSubMode` (lines 907-912). -/
def handleSetBackgroundSubMode (s : AppState) (newSubMode : BackgroundSubMode) : AppState :=
  if s.backgroundSubMode ≠ newSubMode then
    { s with backgroundSubMode := newSubMode, activeGenerationId := none }
  else s

/-- Source `handleSetModelSource` (lines 914-919). -/
def handleSetModelSource (s : AppState) (newSource : ModelSource) : AppState :=
  if s.modelSource ≠ newSource then
    { s with modelSource := newSource, activeGenerationId := none }
  else s

/-- Source `handleDeleteFromHistory` (lines 938-943). -/
def handleDeleteFromHistory (s : AppState) (idToDelete : Nat) : AppState :=
  let s1 := { s with
    sessionGenerations := s.sessionGenerations.filter fun gen => gen.id ≠ idToDelete }
  if s.activeGenerationId = some idToDelete then { s1 with activeGenerationId := none } else s1

/-- The error-clearing writes shared by the effect at lines 769-778 and the
upload handler at lines 952-959: clear the error of the mode's currently
effective status slot. -/
def clearCurrentModeError (s : AppState) : AppState :=
  let s1 :=
    if s.mode = Mode.background then
      let eff := effectiveServiceSubMode s.backgroundSubMode s.backgroundColor
      { s with
        backgroundStatuses :=
          s.backgroundStatuses.set eff { s.backgroundStatuses.get eff with error := none } }
    else s
  if s.mode = Mode.aiModel then
    { s1 with
      aiModelStatuses :=
        s1.aiModelStatuses.set s.modelSource
          { s1.aiModelStatuses.get s.modelSource with error := none } }
  else s1

/-- Which image an upload targets (`imageType` at line 945). -/
inductive ImageType
  | product
  | model
deriving DecidableEq

/-- Source `handleFileUpload` (lines 945-976), at the point the picked file has been
read and decoded (`url`, `naturalWidth`, `naturalHeight`). -/
def handleFileUpload (s : AppState) (imageType : ImageType) (url : String)
    (naturalWidth naturalHeight : Nat) : AppState :=
  let s1 := clearCurrentModeError s
  let imageData : ImageState :=
    { url := some url, originalWidth := naturalWidth, originalHeight := naturalHeight }
  match imageType with
  | .product =>
      { s1 with
        productImage := imageData
        sessionGenerations := []
        activeGenerationId := none
        generationStacks := initialGenerationStacks }
  | .model => { s1 with modelImage := imageData }

/-- The settings snapshot captured synchronously at job start
(lines 1039-1044 and 1090-1095). -/
def captureSnapshot (s : AppState) : GenerationStateSnapshot :=
  { mode := s.mode
    backgroundSubMode := s.backgroundSubMode
    modelSource := s.modelSource
    backgroundColor := s.backgroundColor
    scenePrompt := s.scenePrompt
    aspectRatioVal := s.aspectRatioVal
    promptEnhancer := s.promptEnhancer
    aiGeneratedPrompt := s.aiGeneratedPrompt
    yourModelPrompt := s.yourModelPrompt
    gender := s.gender
    promptBuilder := s.promptBuilder
    aiGeneratedPromptEnhancer := s.aiGeneratedPromptEnhancer
    yourModelPromptEnhancer := s.yourModelPromptEnhancer
    productImageUrl := s.productImage.url
    modelImageUrl := s.modelImage.url }

/-- Synchronous prefix of `handleBackgroundGenerate` (lines 1030-1050): the
two guard clauses, snapshot capture, id allocation, pending-record prepend,
selection, and the `Generating` status write. -/
def submitBackgroundGenerate (s : AppState) : AppState :=
  if ¬ strTruthy s.productImage.url then s
  else
    let eff := effectiveServiceSubMode s.backgroundSubMode s.backgroundColor
    let featureKey := backgroundKeyOf eff
    if (s.backgroundStatuses.get eff).isLoading ≠ LoadingStep.idle then s
    else
      let snapshot := captureSnapshot s
      let newId := s.generationIdCounter
      { s with
        generationIdCounter := s.generationIdCounter + 1
        sessionGenerations :=
          { id := newId, src := none, status := .loading, featureKey := featureKey,
            snapshot := snapshot } :: s.sessionGenerations
        activeGenerationId := some newId
        backgroundStatuses :=
          s.backgroundStatuses.set eff { isLoading := .generating, error := none } }

/-- Synchronous prefix of `handleAiModelGenerate` (lines 1084-1104): the
loading guard, snapshot capture, id allocation, pending-record prepend,
selection, and the `Generating` status write. -/
def submitAiModelGenerate (s : AppState) : AppState :=
  let invokedModelSource := s.modelSource
  let featureKey := aiModelKeyOf invokedModelSource
  if (s.aiModelStatuses.get invokedModelSource).isLoading ≠ LoadingStep.idle then s
  else
    let snapshot := captureSnapshot s
    let newId := s.generationIdCounter
    { s with
      generationIdCounter := s.generationIdCounter + 1
      sessionGenerations :=
        { id := newId, src := none, status := .loading, featureKey := featureKey,
          snapshot := snapshot } :: s.sessionGenerations
      activeGenerationId := some newId
      aiModelStatuses :=
        s.aiModelStatuses.set invokedModelSource { isLoading := .generating, error := none } }

/-- Source `handleGenerateClick` (lines 1133-1139). -/
def handleGenerateClick (s : AppState) : AppState :=
  if s.mode = Mode.background then submitBackgroundGenerate s
  else if s.mode = Mode.aiModel then submitAiModelGenerate s
  else s

/-- The generate operation as actually invocable: the button is rendered
with `disabled={!canGenerate}` (lines 1329 and 1374), so a click reaches
`handleGenerateClick` only when `canGenerate` holds. -/
def generateButtonClick (s : AppState) : AppState :=
  if canGenerate s then handleGenerateClick s else s

/-- Clear the loading phase of a job's status slot, keeping the error:
the `finally` blocks at lines 1079-1081 and 1128-1130. -/
def clearLoadingFor (s : AppState) (k : FeatureKey) : AppState :=
  setStatusFor s k { getStatusFor s k with isLoading := .idle }

/-- Success continuation of a generation job (the `recordNewGeneration` call
at line 1074/1123 followed by the `finally` block): routed by the job's own
feature key captured at submission. -/
def completeGeneration (s : AppState) (imageUrl : String) (generationId : Nat)
    (featureKey : FeatureKey) (isMobile : Bool) : AppState :=
  clearLoadingFor (recordNewGeneration s imageUrl generationId featureKey isMobile) featureKey

/-- Failure continuation of a generation job (the `catch` blocks at
lines 1075-1078 / 1124-1127 followed by the `finally` block): set the
feature's error with loading cleared, and remove the pending record. -/
def failGeneration (s : AppState) (generationId : Nat) (featureKey : FeatureKey)
    (errorMsg : String) : AppState :=
  let s1 := setStatusFor s featureKey { isLoading := .idle, error := some errorMsg }
  let s2 := { s1 with
    sessionGenerations := s1.sessionGenerations.filter fun gen => gen.id ≠ generationId }
  clearLoadingFor s2 featureKey

/-- Source `handleEnhancerChange` (lines 1179-1189). -/
def handleEnhancerChange (s : AppState) : AppState :=
  if s.mode = Mode.aiModel then
    if s.modelSource = ModelSource.ai then
      { s with aiGeneratedPromptEnhancer := ¬ s.aiGeneratedPromptEnhancer }
    else { s with yourModelPromptEnhancer := ¬ s.yourModelPromptEnhancer }
  else { s with promptEnhancer := ¬ s.promptEnhancer }

/-- A field of `PromptBuilderSettings` (the `name` of the select at line 742). -/
inductive PromptBuilderField
  | style
  | composition
  | lighting
deriving DecidableEq

/-- Source `handlePromptBuilderChange` (lines 742-745). -/
def handlePromptBuilderChange (s : AppState) (f : PromptBuilderField) (v : String) : AppState :=
  match f with
  | .style => { s with promptBuilder := { s.promptBuilder with style := v } }
  | .composition => { s with promptBuilder := { s.promptBuilder with composition := v } }
  | .lighting => { s with promptBuilder := { s.promptBuilder with lighting := v } }

/-- Source `handleSelectGeneration` (lines 1191-1256).  The natural dimensions of the
restored product/model images arrive from asynchronous decoding and enter as
the `productDims`/`modelDims` parameters; `isMobile` is the
`window.innerWidth < 1024` probe at line 1252. -/
def handleSelectGeneration (s : AppState) (id : Nat) (productDims modelDims : Nat × Nat)
    (isMobile : Bool) : AppState :=
  match s.sessionGenerations.find? (fun gen => gen.id == id) with
  | none => s
  | some generation =>
    let sn := generation.snapshot
    let s1 := { s with
      mode := sn.mode
      backgroundSubMode := sn.backgroundSubMode
      modelSource := sn.modelSource
      backgroundColor := sn.backgroundColor
      scenePrompt := sn.scenePrompt
      aspectRatioVal := sn.aspectRatioVal
      promptEnhancer := sn.promptEnhancer
      aiGeneratedPrompt := sn.aiGeneratedPrompt
      yourModelPrompt := sn.yourModelPrompt
      gender := sn.gender
      promptBuilder := sn.promptBuilder
      aiGeneratedPromptEnhancer := sn.aiGeneratedPromptEnhancer
      yourModelPromptEnhancer := sn.yourModelPromptEnhancer }
    let s2 :=
      if strTruthy sn.productImageUrl then
        { s1 with
          productImage :=
            { url := sn.productImageUrl, originalWidth := productDims.1,
              originalHeight := productDims.2 } }
      else { s1 with productImage := initialProductImage }
    let s3 :=
      if strTruthy sn.modelImageUrl then
        { s2 with
          modelImage :=
            { url := sn.modelImageUrl, originalWidth := modelDims.1,
              originalHeight := modelDims.2 } }
      else { s2 with modelImage := initialModelImage }
    let s4 := { s3 with activeTab := .settings, activeGenerationId := some id }
    if isMobile then { s4 with isMobileHistoryOpen := false } else s4

/-- Source `canvasDisplayUrl` (lines 1162-1176): the display resolver. -/
def canvasDisplayUrl (s : AppState) : Option String :=
  match s.activeGenerationId with
  | some id => (s.sessionGenerations.find? (fun g => g.id == id)).bind fun g => g.src
  | none =>
    let stack := s.generationStacks.get (getCurrentFeatureKey s)
    if stack.currentIndex ≥ 0 then stack.images[stack.currentIndex.toNat]?
    else none

/-- The canvas-selection synchronization effect (lines 784-792): while the
settings tab is shown, an explicitly selected history record whose feature
does not match the current feature key is deselected. -/
def syncCanvasEffect (s : AppState) : AppState :=
  if s.activeTab = AppTab.settings then
    match s.activeGenerationId with
    | some id =>
      match s.sessionGenerations.find? (fun g => g.id == id) with
      | some activeGen =>
          if activeGen.featureKey ≠ getCurrentFeatureKey s then
            { s with activeGenerationId := none }
          else s
      | none => s
    | none => s
  else s

/-- Re-run the component's effects after a state update, as React does after
the render a handler triggers: the error-clearing effect (lines 769-778) only
when one of its dependencies `[mode, backgroundSubMode, modelSource,
backgroundColor]` changed, and the canvas-sync effect (lines 784-792)
unconditionally (it is idempotent, so re-running it on unchanged
dependencies has no extra effect). -/
def runEffects (old new : AppState) : AppState :=
  let n1 :=
    if old.mode ≠ new.mode ∨ old.backgroundSubMode ≠ new.backgroundSubMode ∨
        old.modelSource ≠ new.modelSource ∨ old.backgroundColor ≠ new.backgroundColor then
      clearCurrentModeError new
    else new
  syncCanvasEffect n1

/-- One user-interface or asynchronous event processed by the component,
followed by the re-run of its effects.  Constructors for controls that live
in the settings panel carry the hypothesis that the settings panel is the
visible tab (in the desktop layout the panel — and the generate button,
line 1327 — is mounted only when `activeTab === 'settings'`; in the mobile
layout the panel is always mounted but `activeTab` never leaves
`'settings'`).  Asynchronous completions (`completeJob`, `failJob`,
uploads, dimension probes) can fire in any state. -/
inductive Step : AppState → AppState → Prop
  | setMode (s : AppState) (m : Mode) (h : s.activeTab = AppTab.settings) :
      Step s (runEffects s (handleSetMode s m))
  | setBackgroundSubMode (s : AppState) (m : BackgroundSubMode)
      (h : s.activeTab = AppTab.settings) :
      Step s (runEffects s (handleSetBackgroundSubMode s m))
  | setModelSource (s : AppState) (m : ModelSource) (h : s.activeTab = AppTab.settings) :
      Step s (runEffects s (handleSetModelSource s m))
  | setBackgroundColor (s : AppState) (c : String) (h : s.activeTab = AppTab.settings) :
      Step s (runEffects s { s with backgroundColor := c })
  | setScenePrompt (s : AppState) (p : String) (h : s.activeTab = AppTab.settings) :
      Step s (runEffects s { s with scenePrompt := p })
  | setAspectRatioVal (s : AppState) (a : String) (h : s.activeTab = AppTab.settings) :
      Step s (runEffects s { s with aspectRatioVal := a })
  | setAiGeneratedPrompt (s : AppState) (p : String) (h : s.activeTab = AppTab.settings) :
      Step s (runEffects s { s with aiGeneratedPrompt := p })
  | setYourModelPrompt (s : AppState) (p : String) (h : s.activeTab = AppTab.settings) :
      Step s (runEffects s { s with yourModelPrompt := p })
  | setGender (s : AppState) (g : Gender) (h : s.activeTab = AppTab.settings) :
      Step s (runEffects s { s with gender := g })
  | enhancerChange (s : AppState) (h : s.activeTab = AppTab.settings) :
      Step s (runEffects s (handleEnhancerChange s))
  | promptBuilderChange (s : AppState) (f : PromptBuilderField) (v : String)
      (h : s.activeTab = AppTab.settings) :
      Step s (runEffects s (handlePromptBuilderChange s f v))
  | generate (s : AppState) (h : s.activeTab = AppTab.settings) :
      Step s (runEffects s (generateButtonClick s))
  | undo (s : AppState) : Step s (runEffects s (handleUndo s))
  | redo (s : AppState) : Step s (runEffects s (handleRedo s))
  | startOver (s : AppState) : Step s (runEffects s (handleStartOver s))
  | upload (s : AppState) (t : ImageType) (url : String) (w h : Nat) :
      Step s (runEffects s (handleFileUpload s t url w h))
  | deleteFromHistory (s : AppState) (id : Nat) :
      Step s (runEffects s (handleDeleteFromHistory s id))
  | selectGeneration (s : AppState) (id : Nat) (pd md : Nat × Nat) (isMobile : Bool) :
      Step s (runEffects s (handleSelectGeneration s id pd md isMobile))
  | completeJob (s : AppState) (r : SessionGeneration) (imageUrl : String) (isMobile : Bool)
      (hmem : r ∈ s.sessionGenerations) (hload : r.status = RecordStatus.loading) :
      Step s (runEffects s (completeGeneration s imageUrl r.id r.featureKey isMobile))
  | failJob (s : AppState) (r : SessionGeneration) (errorMsg : String)
      (hmem : r ∈ s.sessionGenerations) (hload : r.status = RecordStatus.loading) :
      Step s (runEffects s (failGeneration s r.id r.featureKey errorMsg))
  | tabSettings (s : AppState) :
      Step s (runEffects s { s with activeTab := AppTab.settings })
  | tabHistory (s : AppState) :
      Step s (runEffects s { s with activeTab := AppTab.history,
                                    newHistoryNotification := false })
  | openMobileHistory (s : AppState) :
      Step s (runEffects s { s with isMobileHistoryOpen := true,
                                    newHistoryNotification := false })
  | closeMobileHistory (s : AppState) :
      Step s (runEffects s { s with isMobileHistoryOpen := false })

/-- States reachable from the initial render by any sequence of events. -/
inductive Reachable : AppState → Prop
  | init : Reachable initialAppState
  | step {s s' : AppState} : Reachable s → Step s s' → Reachable s'

/-- The documented stack invariant `-1 <= currentIndex < images.length`. -/
def StackInv (st : GenerationStack) : Prop :=
  -1 ≤ st.currentIndex ∧ st.currentIndex < (st.images.length : Int)

instance (st : GenerationStack) : Decidable (StackInv st) := by
  unfold StackInv
  infer_instance

/-- All five stacks satisfy the stack invariant. -/
def StacksInv (g : GenerationStacks) : Prop :=
  ∀ k, StackInv (g.get k)

instance (g : GenerationStacks) : Decidable (StacksInv g) := by
  unfold StacksInv
  infer_instance

/-- If the explicit selection points at a still-loading record, that record's
feature is the currently active feature (a late completion therefore never
finds its own still-pending record selected under a different active
feature). -/
def SelectionInv (s : AppState) : Prop :=
  ∀ r ∈ s.sessionGenerations, r.status = RecordStatus.loading →
    s.activeGenerationId = some r.id → r.featureKey = getCurrentFeatureKey s

/-- Every log record's stored feature key is the one its snapshot's control
values derive to. -/
def SnapshotKeyInv (s : AppState) : Prop :=
  ∀ r ∈ s.sessionGenerations, r.featureKey = snapshotFeatureKey r.snapshot

/-- Log ids are strictly decreasing (newest-first) and below the counter. -/
def IdsInv (s : AppState) : Prop :=
  s.sessionGenerations.Pairwise (fun a b => b.id < a.id) ∧
  ∀ r ∈ s.sessionGenerations, r.id < s.generationIdCounter

/-- A still-loading record carries no result image yet. -/
def RecordSrcInv (s : AppState) : Prop :=
  ∀ r ∈ s.sessionGenerations, r.status = RecordStatus.loading → r.src = none

/-- The canvas-sync effect has been flushed (React re-runs effects after
every committed update, so every externally observable state is a fixpoint). -/
def Stable (s : AppState) : Prop :=
  syncCanvasEffect s = s

/-- The global reachability invariant. -/
def AppInv (s : AppState) : Prop :=
  Stable s ∧ SelectionInv s ∧ SnapshotKeyInv s ∧ StacksInv s.generationStacks ∧
    IdsInv s ∧ RecordSrcInv s

/-- The stack clause of the display-resolver precedence (spec §4.5, items
2-3): the active feature's image at the cursor when the cursor is at least 0,
otherwise none.  This is also verbatim the no-selection branch of
`canvasDisplayUrl` (lines 1168-1175). -/
def stackCurrentImage (s : AppState) : Option String :=
  let stack := s.generationStacks.get (getCurrentFeatureKey s)
  if stack.currentIndex ≥ 0 then stack.images[stack.currentIndex.toNat]?
  else none

/-- The display-resolver precedence exactly as the spec states it (§4.5):
a set selection whose record still exists and is done wins; *otherwise* the
active feature's stack image; otherwise none.  Used to compare the spec's
wording against the implemented `canvasDisplayUrl`. -/
def canvasDisplayUrlSpec (s : AppState) : Option String :=
  match s.activeGenerationId with
  | some id =>
    match s.sessionGenerations.find? (fun g => g.id == id) with
    | some g => if g.status = RecordStatus.done then g.src else stackCurrentImage s
    | none => stackCurrentImage s
  | none => stackCurrentImage s

/-- The amended resolver precedence actually implemented: while a selection
is set the resolver never falls back to the stack — it yields the selected
record's image when the record exists and is done, and nothing when the
record is missing or still loading; only with no selection set does the
active feature's stack image show. -/
def canvasDisplayUrlAmended (s : AppState) : Option String :=
  match s.activeGenerationId with
  | some id =>
    match s.sessionGenerations.find? (fun g => g.id == id) with
    | some g => if g.status = RecordStatus.done then g.src else none
    | none => none
  | none => stackCurrentImage s

/-- The three operations a generation stack is built from. -/
inductive StackOp
  | push (u : String)
  | undoOp
  | redoOp

/-- Apply one stack operation. -/
def applyStackOp (st : GenerationStack) : StackOp → GenerationStack
  | .push u => st.push u
  | .undoOp => st.undoStep
  | .redoOp => st.redoStep

/-! Concrete states used to witness the claims: a product upload, a
background-color submission, a feature switch, a completion, a second
submission and its failure. -/

def wUpload : AppState :=
  runEffects initialAppState (handleFileUpload initialAppState .product "p.png" 100 80)

def wSubmitted : AppState := runEffects wUpload (generateButtonClick wUpload)

/-- The pending record allocated by the submission in `wSubmitted`. -/
def wPending : SessionGeneration :=
  { id := 0, src := none, status := .loading, featureKey := .backgroundColor,
    snapshot := captureSnapshot wUpload }

def wSwitched : AppState := runEffects wSubmitted (handleSetMode wSubmitted Mode.aiModel)

def wDone : AppState :=
  runEffects wSubmitted
    (completeGeneration wSubmitted "res.png" wPending.id wPending.featureKey false)

/-- The completed form of `wPending` as it appears in `wDone`. -/
def wDoneRec : SessionGeneration :=
  { id := 0, src := some "res.png", status := .done, featureKey := .backgroundColor,
    snapshot := captureSnapshot wUpload }

def wSecond : AppState := runEffects wDone (generateButtonClick wDone)

/-- The pending record allocated by the second submission in `wSecond`. -/
def wPending2 : SessionGeneration :=
  { id := 1, src := none, status := .loading, featureKey := .backgroundColor,
    snapshot := captureSnapshot wDone }

def wFailed : AppState :=
  runEffects wSecond (failGeneration wSecond wPending2.id wPending2.featureKey "boom")

/-- A state whose background-color stack is `[A,B,C]` with the cursor moved
back to index 0 (the truncation example of spec §8). -/
def wTruncStack : GenerationStack := { images := ["A", "B", "C"], currentIndex := 0 }

def wTrunc : AppState :=
  { initialAppState with
    generationStacks := initialGenerationStacks.set .backgroundColor wTruncStack }

/-! Basic lemmas about stacks and lists. -/

theorem GenerationStacks.get_set_self (g : GenerationStacks) (k : FeatureKey)
    (st : GenerationStack) : (g.set k st).get k = st := by
  cases k <;> rfl

theorem GenerationStacks.get_set_of_ne (g : GenerationStacks) {k k' : FeatureKey}
    (st : GenerationStack) (h : k' ≠ k) : (g.set k st).get k' = g.get k' := by
  cases k <;> cases k' <;> first | rfl | exact absurd rfl h

theorem StackInv.push (st : GenerationStack) (u : String) : StackInv (st.push u) := by
  unfold StackInv GenerationStack.push
  refine ⟨?_, ?_⟩
  · simp
    omega
  · simp

theorem StackInv.undoStep {st : GenerationStack} (h : StackInv st) :
    StackInv st.undoStep := by
  unfold StackInv GenerationStack.undoStep at *
  split <;> simp at * <;> omega

theorem StackInv.redoStep {st : GenerationStack} (h : StackInv st) :
    StackInv st.redoStep := by
  unfold StackInv GenerationStack.redoStep at *
  split <;> simp at * <;> omega

theorem stacksInv_set {g : GenerationStacks} (hg : StacksInv g) {k : FeatureKey}
    {st : GenerationStack} (hst : StackInv st) : StacksInv (g.set k st) := by
  intro k'
  by_cases hk : k' = k
  · subst hk
    rw [GenerationStacks.get_set_self]
    exact hst
  · rw [GenerationStacks.get_set_of_ne _ _ hk]
    exact hg k'

theorem stacksInv_initial : StacksInv initialGenerationStacks := by
  decide

/-- JS `slice(0, e)` with a non-negative bound is `take`. -/
theorem jsSlice_of_nonneg (l : List String) {e : Int} (he : 0 ≤ e) :
    jsSlice l e = l.take e.toNat := by
  unfold jsSlice
  rw [if_neg (by omega)]

/-- Strictly descending ids make records with equal ids equal. -/
theorem eq_of_mem_of_id_eq {l : List SessionGeneration}
    (hp : l.Pairwise (fun a b => b.id < a.id)) {r g : SessionGeneration}
    (hr : r ∈ l) (hg : g ∈ l) (hid : r.id = g.id) : r = g := by
  induction l with
  | nil => cases hr
  | cons x xs ih =>
    rw [List.pairwise_cons] at hp
    rcases List.mem_cons.mp hr with hr1 | hr1
    · rcases List.mem_cons.mp hg with hg1 | hg1
      · rw [hr1, hg1]
      · have := hp.1 g hg1
        rw [hr1] at hid
        exfalso
        omega
    · rcases List.mem_cons.mp hg with hg1 | hg1
      · have := hp.1 r hr1
        rw [hg1] at hid
        exfalso
        omega
      · exact ih hp.2 hr1 hg1

/-- A found record has the looked-up id and is a member. -/
theorem find?_id_spec {l : List SessionGeneration} {j : Nat} {g : SessionGeneration}
    (h : l.find? (fun g => g.id == j) = some g) : g ∈ l ∧ g.id = j :=
  ⟨List.mem_of_find?_eq_some h, by simpa using List.find?_some h⟩

/-- Finding by an id in a list mapped by an id-preserving function. -/
theorem find?_map_id_pres (l : List SessionGeneration)
    (f : SessionGeneration → SessionGeneration) (hid : ∀ g, (f g).id = g.id) (j : Nat) :
    (l.map f).find? (fun g => g.id == j) = (l.find? (fun g => g.id == j)).map f := by
  induction l with
  | nil => rfl
  | cons x xs ih =>
    by_cases hx : x.id = j
    · simp [List.find?, hid, hx]
    · simp only [List.map_cons, List.find?]
      rw [show (((f x).id == j) = false) by simpa [hid] using hx,
        show ((x.id == j) = false) by simpa using hx]
      exact ih

/-! Lemmas about the canvas-sync effect. -/

/-- Case analysis of one run of the canvas-sync effect: it either leaves the
state alone or precisely clears a mismatched explicit selection. -/
theorem syncCanvasEffect_cases (s : AppState) :
    syncCanvasEffect s = s ∨
      (s.activeTab = AppTab.settings ∧ ∃ id g, s.activeGenerationId = some id ∧
        s.sessionGenerations.find? (fun g => g.id == id) = some g ∧
        g.featureKey ≠ getCurrentFeatureKey s ∧
        syncCanvasEffect s = { s with activeGenerationId := none }) := by
  unfold syncCanvasEffect
  split
  · rename_i htab
    split
    · rename_i id heq
      split
      · rename_i g hfind
        split
        · rename_i hne
          exact Or.inr ⟨htab, id, g, heq, hfind, hne, rfl⟩
        · exact Or.inl rfl
      · exact Or.inl rfl
    · exact Or.inl rfl
  · exact Or.inl rfl

theorem syncCanvasEffect_idem (s : AppState) :
    syncCanvasEffect (syncCanvasEffect s) = syncCanvasEffect s := by
  rcases syncCanvasEffect_cases s with h | ⟨_, _, _, _, _, _, h⟩
  · rw [h, h]
  · rw [h]
    unfold syncCanvasEffect
    split
    · rfl
    · rfl

/-- The effect only ever touches the explicit selection. -/
theorem syncCanvasEffect_fields (s : AppState) :
    ∃ sel, syncCanvasEffect s = { s with activeGenerationId := sel } := by
  rcases syncCanvasEffect_cases s with h | ⟨_, _, _, _, _, _, h⟩
  · exact ⟨s.activeGenerationId, by rw [h]⟩
  · exact ⟨none, h⟩

/-- What a stable state guarantees: a selected, still-present record matches
the current feature key while the settings tab is shown. -/
theorem stable_elim {s : AppState} (hs : Stable s) (htab : s.activeTab = AppTab.settings)
    {j : Nat} (hsel : s.activeGenerationId = some j) {g : SessionGeneration}
    (hfind : s.sessionGenerations.find? (fun g => g.id == j) = some g) :
    g.featureKey = getCurrentFeatureKey s := by
  by_contra hne
  unfold Stable syncCanvasEffect at hs
  rw [if_pos htab] at hs
  rw [hsel] at hs
  simp only [hfind] at hs
  rw [if_pos hne] at hs
  have := congrArg AppState.activeGenerationId hs
  simp at this
  rw [hsel] at this
  cases this

/-- The effect never invents a selection: if it changes anything it clears. -/
theorem selectionInv_syncCanvasEffect {s : AppState} (h : SelectionInv s) :
    SelectionInv (syncCanvasEffect s) := by
  rcases syncCanvasEffect_cases s with heq | ⟨_, _, _, _, _, _, heq⟩
  · rw [heq]
    exact h
  · rw [heq]
    intro r hr _ hsel
    cases hsel

/-- After a run of the effect on a settings-tab state with unique record ids,
the selection invariant holds outright. -/
theorem selectionInv_of_effect {s : AppState} (htab : s.activeTab = AppTab.settings)
    (hp : s.sessionGenerations.Pairwise (fun a b => b.id < a.id)) :
    SelectionInv (syncCanvasEffect s) := by
  rcases syncCanvasEffect_cases s with heq | ⟨_, _, _, _, _, _, heq⟩
  · rw [heq]
    intro r hr _ hsel
    have hfound : ∃ g, s.sessionGenerations.find? (fun g => g.id == r.id) = some g := by
      have : (s.sessionGenerations.find? (fun g => g.id == r.id)).isSome := by
        rw [List.find?_isSome]
        exact ⟨r, hr, by simp⟩
      exact Option.isSome_iff_exists.mp this
    obtain ⟨g, hg⟩ := hfound
    obtain ⟨hgmem, hgid⟩ := find?_id_spec hg
    have hrg : r = g := eq_of_mem_of_id_eq hp hr hgmem hgid.symm
    rw [hrg]
    exact stable_elim heq htab hsel hg
  · rw [heq]
    intro r hr _ hsel
    cases hsel

/-! Transport of the invariants along component-wise equal states. -/

theorem snapshotKeyInv_congr {x y : AppState}
    (hlog : y.sessionGenerations = x.sessionGenerations) (h : SnapshotKeyInv x) :
    SnapshotKeyInv y := by
  unfold SnapshotKeyInv at *
  rw [hlog]
  exact h

theorem recordSrcInv_congr {x y : AppState}
    (hlog : y.sessionGenerations = x.sessionGenerations) (h : RecordSrcInv x) :
    RecordSrcInv y := by
  unfold RecordSrcInv at *
  rw [hlog]
  exact h

theorem idsInv_congr {x y : AppState}
    (hlog : y.sessionGenerations = x.sessionGenerations)
    (hctr : y.generationIdCounter = x.generationIdCounter) (h : IdsInv x) : IdsInv y := by
  unfold IdsInv at *
  rw [hlog, hctr]
  exact h

theorem selectionInv_congr {x y : AppState}
    (hlog : y.sessionGenerations = x.sessionGenerations)
    (hsel : y.activeGenerationId = x.activeGenerationId)
    (hkey : getCurrentFeatureKey y = getCurrentFeatureKey x)
    (h : SelectionInv x) : SelectionInv y := by
  intro r hr hload hs
  rw [hkey]
  exact h r (hlog ▸ hr) hload (hsel ▸ hs)

/-! Normal forms for statuses-only mutations. -/

theorem clearCurrentModeError_eq (s : AppState) :
    ∃ b a, clearCurrentModeError s =
      { s with backgroundStatuses := b, aiModelStatuses := a } := by
  unfold clearCurrentModeError
  dsimp only
  split
  · split
    · exact ⟨_, _, rfl⟩
    · exact ⟨_, _, rfl⟩
  · split
    · exact ⟨_, _, rfl⟩
    · exact ⟨_, _, rfl⟩

theorem setStatusFor_eq (s : AppState) (k : FeatureKey) (st : OperationStatus) :
    ∃ b a, setStatusFor s k st =
      { s with backgroundStatuses := b, aiModelStatuses := a } := by
  cases k <;> exact ⟨_, _, rfl⟩

theorem clearLoadingFor_eq (s : AppState) (k : FeatureKey) :
    ∃ b a, clearLoadingFor s k =
      { s with backgroundStatuses := b, aiModelStatuses := a } :=
  setStatusFor_eq s k _

/-! The generic preservation scaffolding: establishing the full invariant on
`runEffects old h` from facts about the post-handler state `h`. -/

theorem appInv_syncEffect (x : AppState)
    (hSnap : SnapshotKeyInv x) (hStacks : StacksInv x.generationStacks)
    (hIds : IdsInv x) (hSrc : RecordSrcInv x)
    (hSel : SelectionInv x ∨ x.activeTab = AppTab.settings) :
    AppInv (syncCanvasEffect x) := by
  obtain ⟨sel, hf⟩ := syncCanvasEffect_fields x
  refine ⟨?_, ?_, ?_, ?_, ?_, ?_⟩
  · exact syncCanvasEffect_idem x
  · rcases hSel with h | h
    · exact selectionInv_syncCanvasEffect h
    · exact selectionInv_of_effect h hIds.1
  · exact snapshotKeyInv_congr (by rw [hf]) hSnap
  · rw [hf]
    exact hStacks
  · exact idsInv_congr (by rw [hf]) (by rw [hf]) hIds
  · exact recordSrcInv_congr (by rw [hf]) hSrc

theorem appInv_of_handler (old h : AppState)
    (hSnap : SnapshotKeyInv h) (hStacks : StacksInv h.generationStacks)
    (hIds : IdsInv h) (hSrc : RecordSrcInv h)
    (hSel : SelectionInv h ∨ h.activeTab = AppTab.settings) :
    AppInv (runEffects old h) := by
  unfold runEffects
  dsimp only
  split
  · obtain ⟨b, a, hba⟩ := clearCurrentModeError_eq h
    rw [hba]
    refine appInv_syncEffect _ (snapshotKeyInv_congr rfl hSnap) hStacks
      (idsInv_congr rfl rfl hIds) (recordSrcInv_congr rfl hSrc) ?_
    rcases hSel with hS | hS
    · exact Or.inl (selectionInv_congr rfl rfl rfl hS)
    · exact Or.inr hS
  · exact appInv_syncEffect h hSnap hStacks hIds hSrc hSel

/-! Lemmas about the completion handler. -/

theorem completeRecord_id (u : String) (j : Nat) (g : SessionGeneration) :
    (completeRecord u j g).id = g.id := by
  unfold completeRecord
  split <;> rfl

theorem completeRecord_featureKey (u : String) (j : Nat) (g : SessionGeneration) :
    (completeRecord u j g).featureKey = g.featureKey := by
  unfold completeRecord
  split <;> rfl

theorem completeRecord_snapshot (u : String) (j : Nat) (g : SessionGeneration) :
    (completeRecord u j g).snapshot = g.snapshot := by
  unfold completeRecord
  split <;> rfl

theorem completeRecord_of_ne (u : String) {j : Nat} {g : SessionGeneration} (h : g.id ≠ j) :
    completeRecord u j g = g := by
  unfold completeRecord
  exact if_neg h

theorem completeRecord_of_eq (u : String) {j : Nat} {g : SessionGeneration} (h : g.id = j) :
    completeRecord u j g = { g with src := some u, status := .done } := by
  unfold completeRecord
  exact if_pos h

/-- Normal form of `recordNewGeneration`: the log is mapped, the stack of the
job's feature is pushed, and the selection is taken over exactly when the
job's feature key matches the feature key current at completion time. -/
theorem recordNewGeneration_eq (s : AppState) (u : String) (j : Nat) (k : FeatureKey)
    (mob : Bool) :
    ∃ (noti : Bool) (sel : Option Nat),
      recordNewGeneration s u j k mob =
        { s with
          sessionGenerations := s.sessionGenerations.map (completeRecord u j)
          activeGenerationId := sel
          newHistoryNotification := noti
          generationStacks :=
            s.generationStacks.set k ((s.generationStacks.get k).push u) } ∧
      ((k = getCurrentFeatureKey s ∧ sel = some j) ∨
        (k ≠ getCurrentFeatureKey s ∧ sel = s.activeGenerationId)) := by
  unfold recordNewGeneration
  dsimp only
  by_cases hk : k = getCurrentFeatureKey s
  · rw [if_pos hk]
    split
    · exact ⟨_, _, rfl, Or.inl ⟨hk, rfl⟩⟩
    · exact ⟨_, _, rfl, Or.inl ⟨hk, rfl⟩⟩
  · rw [if_neg hk]
    split
    · exact ⟨_, _, rfl, Or.inr ⟨hk, rfl⟩⟩
    · exact ⟨_, _, rfl, Or.inr ⟨hk, rfl⟩⟩

/-- Normal form of `failGeneration`: statuses aside, it exactly filters the
job's record out of the log. -/
theorem failGeneration_eq (s : AppState) (j : Nat) (k : FeatureKey) (msg : String) :
    ∃ b a,
      failGeneration s j k msg =
        { s with
          backgroundStatuses := b
          aiModelStatuses := a
          sessionGenerations := s.sessionGenerations.filter (fun gen => gen.id ≠ j) } := by
  unfold failGeneration
  dsimp only
  obtain ⟨b1, a1, h1⟩ := setStatusFor_eq s k { isLoading := .idle, error := some msg }
  rw [h1]
  obtain ⟨b2, a2, h2⟩ := clearLoadingFor_eq
    ({ s with
        backgroundStatuses := b1
        aiModelStatuses := a1
        sessionGenerations := s.sessionGenerations.filter (fun gen => gen.id ≠ j) }) k
  exact ⟨b2, a2, h2⟩

/-! Vacuity and filtering helpers for the invariants. -/

theorem selectionInv_of_none {x : AppState} (h : x.activeGenerationId = none) :
    SelectionInv x := by
  intro r hr hl hs
  rw [h] at hs
  cases hs

theorem snapshotKeyInv_of_nil {x : AppState} (h : x.sessionGenerations = []) :
    SnapshotKeyInv x := by
  intro r hr
  rw [h] at hr
  cases hr

theorem recordSrcInv_of_nil {x : AppState} (h : x.sessionGenerations = []) :
    RecordSrcInv x := by
  intro r hr
  rw [h] at hr
  cases hr

theorem idsInv_of_nil {x : AppState} (h : x.sessionGenerations = []) : IdsInv x := by
  constructor
  · rw [h]
    exact List.Pairwise.nil
  · intro r hr
    rw [h] at hr
    cases hr

theorem currentKey_background {s : AppState} (h : s.mode = Mode.background) :
    getCurrentFeatureKey s =
      backgroundKeyOf (effectiveServiceSubMode s.backgroundSubMode s.backgroundColor) := by
  unfold getCurrentFeatureKey deriveFeatureKey
  rw [h]

theorem currentKey_aiModel {s : AppState} (h : s.mode = Mode.aiModel) :
    getCurrentFeatureKey s = aiModelKeyOf s.modelSource := by
  unfold getCurrentFeatureKey deriveFeatureKey
  rw [h]

/-- The snapshot captured at submission derives back to the feature key that
was current at submission time. -/
theorem snapshotFeatureKey_capture (s : AppState) :
    snapshotFeatureKey (captureSnapshot s) = getCurrentFeatureKey s := rfl

/-! Preservation of the global invariant along every step. -/

theorem appInv_step {s s' : AppState} (hinv : AppInv s) (hstep : Step s s') : AppInv s' := by
  obtain ⟨hStable, hSel, hSnap, hStacks, hIds, hSrc⟩ := hinv
  cases hstep with
  | setMode m htab =>
    unfold handleSetMode
    split
    · exact appInv_of_handler _ _ (snapshotKeyInv_congr rfl hSnap) hStacks
        (idsInv_congr rfl rfl hIds) (recordSrcInv_congr rfl hSrc) (Or.inr htab)
    · exact appInv_of_handler _ _ hSnap hStacks hIds hSrc (Or.inr htab)
  | setBackgroundSubMode m htab =>
    unfold handleSetBackgroundSubMode
    split
    · exact appInv_of_handler _ _ (snapshotKeyInv_congr rfl hSnap) hStacks
        (idsInv_congr rfl rfl hIds) (recordSrcInv_congr rfl hSrc) (Or.inr htab)
    · exact appInv_of_handler _ _ hSnap hStacks hIds hSrc (Or.inr htab)
  | setModelSource m htab =>
    unfold handleSetModelSource
    split
    · exact appInv_of_handler _ _ (snapshotKeyInv_congr rfl hSnap) hStacks
        (idsInv_congr rfl rfl hIds) (recordSrcInv_congr rfl hSrc) (Or.inr htab)
    · exact appInv_of_handler _ _ hSnap hStacks hIds hSrc (Or.inr htab)
  | setBackgroundColor c htab =>
    exact appInv_of_handler _ _ (snapshotKeyInv_congr rfl hSnap) hStacks
      (idsInv_congr rfl rfl hIds) (recordSrcInv_congr rfl hSrc) (Or.inr htab)
  | setScenePrompt p htab =>
    exact appInv_of_handler _ _ (snapshotKeyInv_congr rfl hSnap) hStacks
      (idsInv_congr rfl rfl hIds) (recordSrcInv_congr rfl hSrc) (Or.inr htab)
  | setAspectRatioVal aval htab =>
    exact appInv_of_handler _ _ (snapshotKeyInv_congr rfl hSnap) hStacks
      (idsInv_congr rfl rfl hIds) (recordSrcInv_congr rfl hSrc) (Or.inr htab)
  | setAiGeneratedPrompt p htab =>
    exact appInv_of_handler _ _ (snapshotKeyInv_congr rfl hSnap) hStacks
      (idsInv_congr rfl rfl hIds) (recordSrcInv_congr rfl hSrc) (Or.inr htab)
  | setYourModelPrompt p htab =>
    exact appInv_of_handler _ _ (snapshotKeyInv_congr rfl hSnap) hStacks
      (idsInv_congr rfl rfl hIds) (recordSrcInv_congr rfl hSrc) (Or.inr htab)
  | setGender g htab =>
    exact appInv_of_handler _ _ (snapshotKeyInv_congr rfl hSnap) hStacks
      (idsInv_congr rfl rfl hIds) (recordSrcInv_congr rfl hSrc) (Or.inr htab)
  | enhancerChange htab =>
    unfold handleEnhancerChange
    split
    · split <;>
        exact appInv_of_handler _ _ (snapshotKeyInv_congr rfl hSnap) hStacks
          (idsInv_congr rfl rfl hIds) (recordSrcInv_congr rfl hSrc) (Or.inr htab)
    · exact appInv_of_handler _ _ (snapshotKeyInv_congr rfl hSnap) hStacks
        (idsInv_congr rfl rfl hIds) (recordSrcInv_congr rfl hSrc) (Or.inr htab)
  | promptBuilderChange f v htab =>
    cases f <;>
      exact appInv_of_handler _ _ (snapshotKeyInv_congr rfl hSnap) hStacks
        (idsInv_congr rfl rfl hIds) (recordSrcInv_congr rfl hSrc) (Or.inr htab)
  | generate htab =>
    unfold generateButtonClick
    split
    · unfold handleGenerateClick
      split
      · rename_i hmode
        unfold submitBackgroundGenerate
        dsimp only
        split
        · exact appInv_of_handler _ _ hSnap hStacks hIds hSrc (Or.inr htab)
        · split
          · exact appInv_of_handler _ _ hSnap hStacks hIds hSrc (Or.inr htab)
          · refine appInv_of_handler _ _ ?_ hStacks ⟨?_, ?_⟩ ?_ (Or.inr htab)
            · intro r hr
              rcases List.mem_cons.mp hr with hr1 | hr1
              · rw [hr1]
                show backgroundKeyOf _ = snapshotFeatureKey (captureSnapshot s)
                rw [snapshotFeatureKey_capture, currentKey_background hmode]
              · exact hSnap r hr1
            · refine List.pairwise_cons.mpr ⟨?_, hIds.1⟩
              intro b hb
              exact hIds.2 b hb
            · intro r hr
              rcases List.mem_cons.mp hr with hr1 | hr1
              · rw [hr1]
                show s.generationIdCounter < s.generationIdCounter + 1
                omega
              · have := hIds.2 r hr1
                show r.id < s.generationIdCounter + 1
                omega
            · intro r hr hl
              rcases List.mem_cons.mp hr with hr1 | hr1
              · rw [hr1]
              · exact hSrc r hr1 hl
      · split
        · rename_i hnb hmode
          unfold submitAiModelGenerate
          dsimp only
          split
          · exact appInv_of_handler _ _ hSnap hStacks hIds hSrc (Or.inr htab)
          · refine appInv_of_handler _ _ ?_ hStacks ⟨?_, ?_⟩ ?_ (Or.inr htab)
            · intro r hr
              rcases List.mem_cons.mp hr with hr1 | hr1
              · rw [hr1]
                show aiModelKeyOf _ = snapshotFeatureKey (captureSnapshot s)
                rw [snapshotFeatureKey_capture, currentKey_aiModel hmode]
              · exact hSnap r hr1
            · refine List.pairwise_cons.mpr ⟨?_, hIds.1⟩
              intro b hb
              exact hIds.2 b hb
            · intro r hr
              rcases List.mem_cons.mp hr with hr1 | hr1
              · rw [hr1]
                show s.generationIdCounter < s.generationIdCounter + 1
                omega
              · have := hIds.2 r hr1
                show r.id < s.generationIdCounter + 1
                omega
            · intro r hr hl
              rcases List.mem_cons.mp hr with hr1 | hr1
              · rw [hr1]
              · exact hSrc r hr1 hl
        · exact appInv_of_handler _ _ hSnap hStacks hIds hSrc (Or.inr htab)
    · exact appInv_of_handler _ _ hSnap hStacks hIds hSrc (Or.inr htab)
  | undo =>
    exact appInv_of_handler _ _ (snapshotKeyInv_congr rfl hSnap)
      (stacksInv_set hStacks (StackInv.undoStep (hStacks _)))
      (idsInv_congr rfl rfl hIds) (recordSrcInv_congr rfl hSrc)
      (Or.inl (selectionInv_of_none rfl))
  | redo =>
    exact appInv_of_handler _ _ (snapshotKeyInv_congr rfl hSnap)
      (stacksInv_set hStacks (StackInv.redoStep (hStacks _)))
      (idsInv_congr rfl rfl hIds) (recordSrcInv_congr rfl hSrc)
      (Or.inl (selectionInv_of_none rfl))
  | startOver =>
    exact appInv_of_handler _ _ (snapshotKeyInv_of_nil rfl) stacksInv_initial
      (idsInv_of_nil rfl) (recordSrcInv_of_nil rfl) (Or.inl (selectionInv_of_none rfl))
  | upload t url w hgt =>
    obtain ⟨b, a, hba⟩ := clearCurrentModeError_eq s
    cases t with
    | product =>
      unfold handleFileUpload
      dsimp only
      rw [hba]
      exact appInv_of_handler _ _ (snapshotKeyInv_of_nil rfl) stacksInv_initial
        (idsInv_of_nil rfl) (recordSrcInv_of_nil rfl) (Or.inl (selectionInv_of_none rfl))
    | model =>
      unfold handleFileUpload
      dsimp only
      rw [hba]
      exact appInv_of_handler _ _ (snapshotKeyInv_congr rfl hSnap) hStacks
        (idsInv_congr rfl rfl hIds) (recordSrcInv_congr rfl hSrc)
        (Or.inl (selectionInv_congr rfl rfl rfl hSel))
  | deleteFromHistory j =>
    unfold handleDeleteFromHistory
    dsimp only
    split
    · refine appInv_of_handler _ _ ?_ hStacks ⟨?_, ?_⟩ ?_
        (Or.inl (selectionInv_of_none rfl))
      · intro r hr
        exact hSnap r (List.mem_of_mem_filter hr)
      · exact List.Pairwise.sublist (List.filter_sublist _) hIds.1
      · intro r hr
        exact hIds.2 r (List.mem_of_mem_filter hr)
      · intro r hr hl
        exact hSrc r (List.mem_of_mem_filter hr) hl
    · refine appInv_of_handler _ _ ?_ hStacks ⟨?_, ?_⟩ ?_ (Or.inl ?_)
      · intro r hr
        exact hSnap r (List.mem_of_mem_filter hr)
      · exact List.Pairwise.sublist (List.filter_sublist _) hIds.1
      · intro r hr
        exact hIds.2 r (List.mem_of_mem_filter hr)
      · intro r hr hl
        exact hSrc r (List.mem_of_mem_filter hr) hl
      · intro r hr hl hs
        exact hSel r (List.mem_of_mem_filter hr) hl hs
  | selectGeneration j pd md isMobile =>
    unfold handleSelectGeneration
    split
    · exact appInv_of_handler _ _ hSnap hStacks hIds hSrc (Or.inl hSel)
    · dsimp only
      split <;> split <;> split <;>
        exact appInv_of_handler _ _ (snapshotKeyInv_congr rfl hSnap) hStacks
          (idsInv_congr rfl rfl hIds) (recordSrcInv_congr rfl hSrc) (Or.inr rfl)
  | completeJob r u mob hmem hload =>
    obtain ⟨noti, sel, hrec, hdisj⟩ := recordNewGeneration_eq s u r.id r.featureKey mob
    unfold completeGeneration
    obtain ⟨b, a, hcl⟩ :=
      clearLoadingFor_eq (recordNewGeneration s u r.id r.featureKey mob) r.featureKey
    rw [hcl, hrec]
    refine appInv_of_handler _ _ ?_ (stacksInv_set hStacks (StackInv.push _ _))
      ⟨?_, ?_⟩ ?_ (Or.inl ?_)
    · intro r' hr'
      obtain ⟨r0, hr0, hr0eq⟩ := List.mem_map.mp hr'
      rw [← hr0eq, completeRecord_featureKey, completeRecord_snapshot]
      exact hSnap r0 hr0
    · refine List.pairwise_map.mpr (hIds.1.imp ?_)
      intro x y hxy
      rw [completeRecord_id, completeRecord_id]
      exact hxy
    · intro r' hr'
      obtain ⟨r0, hr0, hr0eq⟩ := List.mem_map.mp hr'
      rw [← hr0eq, completeRecord_id]
      exact hIds.2 r0 hr0
    · intro r' hr' hl'
      obtain ⟨r0, hr0, hr0eq⟩ := List.mem_map.mp hr'
      by_cases h0 : r0.id = r.id
      · rw [← hr0eq, completeRecord_of_eq u h0] at hl'
        cases hl'
      · rw [← hr0eq, completeRecord_of_ne u h0] at hl' ⊢
        exact hSrc r0 hr0 hl'
    · intro r' hr' hl' hs'
      obtain ⟨r0, hr0, hr0eq⟩ := List.mem_map.mp hr'
      by_cases h0 : r0.id = r.id
      · rw [← hr0eq, completeRecord_of_eq u h0] at hl'
        cases hl'
      · rw [← hr0eq, completeRecord_of_ne u h0] at hl' hs' ⊢
        rcases hdisj with ⟨hk, hseq⟩ | ⟨hk, hseq⟩
        · rw [show ({ s with
              sessionGenerations := s.sessionGenerations.map (completeRecord u r.id)
              activeGenerationId := sel
              newHistoryNotification := noti
              generationStacks := s.generationStacks.set r.featureKey
                ((s.generationStacks.get r.featureKey).push u) } : AppState).activeGenerationId
              = sel from rfl, hseq] at hs'
          exact absurd (by injection hs' with hinj; exact hinj.symm) h0
        · rw [show ({ s with
              sessionGenerations := s.sessionGenerations.map (completeRecord u r.id)
              activeGenerationId := sel
              newHistoryNotification := noti
              generationStacks := s.generationStacks.set r.featureKey
                ((s.generationStacks.get r.featureKey).push u) } : AppState).activeGenerationId
              = sel from rfl, hseq] at hs'
          exact hSel r0 hr0 hl' hs'
  | failJob r msg hmem hload =>
    obtain ⟨b, a, hf⟩ := failGeneration_eq s r.id r.featureKey msg
    rw [hf]
    refine appInv_of_handler _ _ ?_ hStacks ⟨?_, ?_⟩ ?_ (Or.inl ?_)
    · intro r' hr'
      exact hSnap r' (List.mem_of_mem_filter hr')
    · exact List.Pairwise.sublist (List.filter_sublist _) hIds.1
    · intro r' hr'
      exact hIds.2 r' (List.mem_of_mem_filter hr')
    · intro r' hr' hl'
      exact hSrc r' (List.mem_of_mem_filter hr') hl'
    · intro r' hr' hl' hs'
      exact hSel r' (List.mem_of_mem_filter hr') hl' hs'
  | tabSettings =>
    exact appInv_of_handler _ _ (snapshotKeyInv_congr rfl hSnap) hStacks
      (idsInv_congr rfl rfl hIds) (recordSrcInv_congr rfl hSrc) (Or.inr rfl)
  | tabHistory =>
    exact appInv_of_handler _ _ (snapshotKeyInv_congr rfl hSnap) hStacks
      (idsInv_congr rfl rfl hIds) (recordSrcInv_congr rfl hSrc)
      (Or.inl (selectionInv_congr rfl rfl rfl hSel))
  | openMobileHistory =>
    exact appInv_of_handler _ _ (snapshotKeyInv_congr rfl hSnap) hStacks
      (idsInv_congr rfl rfl hIds) (recordSrcInv_congr rfl hSrc)
      (Or.inl (selectionInv_congr rfl rfl rfl hSel))
  | closeMobileHistory =>
    exact appInv_of_handler _ _ (snapshotKeyInv_congr rfl hSnap) hStacks
      (idsInv_congr rfl rfl hIds) (recordSrcInv_congr rfl hSrc)
      (Or.inl (selectionInv_congr rfl rfl rfl hSel))

theorem appInv_initial : AppInv initialAppState := by
  refine ⟨rfl, ?_, ?_, stacksInv_initial, ⟨List.Pairwise.nil, ?_⟩, ?_⟩ <;>
    intro r hr <;> cases hr

/-- Every reachable state satisfies the global invariant. -/
theorem reachable_appInv {s : AppState} (h : Reachable s) : AppInv s := by
  induction h with
  | init => exact appInv_initial
  | step _ hstep ih => exact appInv_step ih hstep

/-! Further lemmas about `runEffects` and the resolver, used by the claim
theorems. -/

/-- When the error-clearing effect's dependencies did not change, re-running
the effects is just the canvas-sync effect. -/
theorem runEffects_same_deps (s new : AppState)
    (h1 : new.mode = s.mode) (h2 : new.backgroundSubMode = s.backgroundSubMode)
    (h3 : new.modelSource = s.modelSource) (h4 : new.backgroundColor = s.backgroundColor) :
    runEffects s new = syncCanvasEffect new := by
  unfold runEffects
  dsimp only
  rw [if_neg (by simp [h1, h2, h3, h4])]

/-- Master normal form of `runEffects`: re-running the effects only ever
rewrites the two status slots and possibly clears the selection. -/
theorem runEffects_proj (s new : AppState) :
    ∃ b a sel,
      runEffects s new =
        { new with backgroundStatuses := b, aiModelStatuses := a,
                   activeGenerationId := sel } := by
  unfold runEffects
  dsimp only
  split
  · obtain ⟨b, a, hba⟩ := clearCurrentModeError_eq new
    rw [hba]
    obtain ⟨sel, hf⟩ :=
      syncCanvasEffect_fields { new with backgroundStatuses := b, aiModelStatuses := a }
    rw [hf]
    exact ⟨b, a, sel, rfl⟩
  · obtain ⟨sel, hf⟩ := syncCanvasEffect_fields new
    rw [hf]
    exact ⟨new.backgroundStatuses, new.aiModelStatuses, sel, rfl⟩

/-- A state with no selection is a fixpoint of the canvas-sync effect. -/
theorem syncCanvasEffect_of_none {x : AppState} (h : x.activeGenerationId = none) :
    syncCanvasEffect x = x := by
  unfold syncCanvasEffect
  split
  · rw [h]
  · rfl

/-- A state whose selection finds no record is a fixpoint of the effect. -/
theorem syncCanvasEffect_of_find_none {x : AppState} {j : Nat}
    (hsel : x.activeGenerationId = some j)
    (hfind : x.sessionGenerations.find? (fun g => g.id == j) = none) :
    syncCanvasEffect x = x := by
  unfold syncCanvasEffect
  split
  · rw [hsel]
    simp only [hfind]
  · rfl

theorem getStatusFor_set_self (s : AppState) (k : FeatureKey) (st : OperationStatus) :
    getStatusFor (setStatusFor s k st) k = st := by
  cases k <;> rfl

/-- Source `getStatusFor` only reads the two status slots. -/
theorem getStatusFor_congr {x y : AppState} (hb : y.backgroundStatuses = x.backgroundStatuses)
    (ha : y.aiModelStatuses = x.aiModelStatuses) (k : FeatureKey) :
    getStatusFor y k = getStatusFor x k := by
  cases k <;> simp [getStatusFor, hb, ha]

/-- In a log with strictly descending ids, looking a member's id up finds
exactly that member. -/
theorem find?_self_of_mem {l : List SessionGeneration}
    (hp : l.Pairwise (fun a b => b.id < a.id)) {r : SessionGeneration} (hr : r ∈ l) :
    l.find? (fun g => g.id == r.id) = some r := by
  have hsome : (l.find? (fun g => g.id == r.id)).isSome := by
    rw [List.find?_isSome]
    exact ⟨r, hr, by simp⟩
  obtain ⟨g, hg⟩ := Option.isSome_iff_exists.mp hsome
  obtain ⟨hgmem, hgid⟩ := find?_id_spec hg
  rw [hg, eq_of_mem_of_id_eq hp hgmem hr hgid]

/-- Filtering an id out of the log leaves nothing that id finds. -/
theorem find?_filter_ne_id (l : List SessionGeneration) (j : Nat) :
    (l.filter (fun gen => gen.id ≠ j)).find? (fun g => g.id == j) = none := by
  rw [List.find?_eq_none]
  intro x hx
  have := (List.mem_filter.mp hx).2
  simp at this ⊢
  exact this

/-- Re-running the effects on a selection-free state only rewrites statuses. -/
theorem runEffects_proj_none (s new : AppState) (h : new.activeGenerationId = none) :
    ∃ b a, runEffects s new =
      { new with backgroundStatuses := b, aiModelStatuses := a } := by
  unfold runEffects
  dsimp only
  split
  · obtain ⟨b, a, hba⟩ := clearCurrentModeError_eq new
    rw [hba, syncCanvasEffect_of_none
      (x := { new with backgroundStatuses := b, aiModelStatuses := a }) h]
    exact ⟨b, a, rfl⟩
  · rw [syncCanvasEffect_of_none h]
    exact ⟨new.backgroundStatuses, new.aiModelStatuses, rfl⟩

/-- After a failure, the job's status slot reads idle with the error set. -/
theorem failGeneration_status (s : AppState) (j : Nat) (k : FeatureKey) (msg : String) :
    getStatusFor (failGeneration s j k msg) k =
      { isLoading := LoadingStep.idle, error := some msg } := by
  cases k <;> rfl

/-- A failure never touches the generation stacks. -/
theorem failGeneration_stacks (s : AppState) (j : Nat) (k : FeatureKey) (msg : String) :
    (failGeneration s j k msg).generationStacks = s.generationStacks := by
  cases k <;> rfl

/-- Bounds-checked no-ops and cursor-only movement of a single stack. -/
theorem genStack_props (st : GenerationStack) :
    (st.canUndo = true ↔ 0 ≤ st.currentIndex) ∧
    (st.canRedo = true ↔ st.currentIndex < (st.images.length : Int) - 1) ∧
    (st.canUndo = false → st.undoStep = st) ∧
    (st.canRedo = false → st.redoStep = st) ∧
    st.undoStep.images = st.images ∧ st.redoStep.images = st.images := by
  refine ⟨?_, ?_, ?_, ?_, ?_, ?_⟩
  · simp [GenerationStack.canUndo, ge_iff_le]
  · simp [GenerationStack.canRedo]
  · intro h
    unfold GenerationStack.canUndo at h
    rw [decide_eq_false_iff_not] at h
    unfold GenerationStack.undoStep
    rw [if_neg h]
  · intro h
    unfold GenerationStack.canRedo at h
    rw [decide_eq_false_iff_not] at h
    unfold GenerationStack.redoStep
    rw [if_neg h]
  · unfold GenerationStack.undoStep
    split <;> rfl
  · unfold GenerationStack.redoStep
    split <;> rfl

/-! Reachability of the witness states. -/

theorem reachable_wUpload : Reachable wUpload :=
  Reachable.step Reachable.init (Step.upload initialAppState ImageType.product "p.png" 100 80)

theorem reachable_wSubmitted : Reachable wSubmitted :=
  Reachable.step reachable_wUpload (Step.generate wUpload (by decide))

theorem reachable_wSwitched : Reachable wSwitched :=
  Reachable.step reachable_wSubmitted (Step.setMode wSubmitted Mode.aiModel (by decide))

theorem reachable_wDone : Reachable wDone :=
  Reachable.step reachable_wSubmitted
    (Step.completeJob wSubmitted wPending "res.png" false (by decide) (by decide))

theorem reachable_wSecond : Reachable wSecond :=
  Reachable.step reachable_wDone (Step.generate wDone (by decide))

theorem reachable_wFailed : Reachable wFailed :=
  Reachable.step reachable_wSecond
    (Step.failJob wSecond wPending2 "boom" (by decide) (by decide))

/-! The claims. -/

/-- C3: recording a successful generation truncates the images list to the
first `currentIndex+1` elements, appends the new image, and moves the cursor
to the new last position. -/
theorem claim_C3 (s : AppState) (u : String) (j : Nat) (k : FeatureKey) (mob : Bool)
    (h : -1 ≤ (s.generationStacks.get k).currentIndex) :
    ((recordNewGeneration s u j k mob).generationStacks.get k).images =
      (s.generationStacks.get k).images.take
        ((s.generationStacks.get k).currentIndex + 1).toNat ++ [u] ∧
    ((recordNewGeneration s u j k mob).generationStacks.get k).currentIndex =
      ((((recordNewGeneration s u j k mob).generationStacks.get k).images.length : Int) -
        1) := by
  obtain ⟨noti, sel, hrec, _⟩ := recordNewGeneration_eq s u j k mob
  have hs : (recordNewGeneration s u j k mob).generationStacks.get k =
      (s.generationStacks.get k).push u := by
    rw [hrec]
    exact GenerationStacks.get_set_self _ _ _
  rw [hs]
  unfold GenerationStack.push
  dsimp only
  refine ⟨?_, rfl⟩
  rw [jsSlice_of_nonneg _ (by omega)]

/-- C3 witness: the stack `[A,B,C]` with cursor moved back to index 0 becomes
`[A,D]` with cursor 1 after recording `D`. -/
theorem claim_C3_witness :
    -1 ≤ (wTrunc.generationStacks.get .backgroundColor).currentIndex ∧
    (((recordNewGeneration wTrunc "D" 9 .backgroundColor false).generationStacks.get
        .backgroundColor).images =
      (wTrunc.generationStacks.get .backgroundColor).images.take
        ((wTrunc.generationStacks.get .backgroundColor).currentIndex + 1).toNat ++ ["D"] ∧
    ((recordNewGeneration wTrunc "D" 9 .backgroundColor false).generationStacks.get
        .backgroundColor).currentIndex =
      ((((recordNewGeneration wTrunc "D" 9 .backgroundColor false).generationStacks.get
        .backgroundColor).images.length : Int) - 1)) ∧
    (recordNewGeneration wTrunc "D" 9 .backgroundColor false).generationStacks.get
        .backgroundColor = { images := ["A", "D"], currentIndex := 1 } :=
  ⟨by decide, claim_C3 wTrunc "D" 9 .backgroundColor false (by decide), by decide⟩

/-- C5: when an in-flight job fails, its record is removed from the log, the
job feature's status becomes idle with the failure message as error, and no
generation stack changes. -/
theorem claim_C5 (s : AppState) (j : Nat) (k : FeatureKey) (msg : String) :
    (∀ g ∈ (runEffects s (failGeneration s j k msg)).sessionGenerations, g.id ≠ j) ∧
    getStatusFor (runEffects s (failGeneration s j k msg)) k =
      { isLoading := LoadingStep.idle, error := some msg } ∧
    (runEffects s (failGeneration s j k msg)).generationStacks = s.generationStacks := by
  obtain ⟨b, a, hf⟩ := failGeneration_eq s j k msg
  have hre : runEffects s (failGeneration s j k msg) =
      syncCanvasEffect (failGeneration s j k msg) :=
    runEffects_same_deps _ _ (by rw [hf]) (by rw [hf]) (by rw [hf]) (by rw [hf])
  obtain ⟨sel, hsf⟩ := syncCanvasEffect_fields (failGeneration s j k msg)
  refine ⟨?_, ?_, ?_⟩
  · intro g hg
    rw [hre, hsf, hf] at hg
    have hmem : g ∈ s.sessionGenerations.filter (fun gen => gen.id ≠ j) := hg
    have := (List.mem_filter.mp hmem).2
    simpa using this
  · rw [hre]
    have h1 : getStatusFor (syncCanvasEffect (failGeneration s j k msg)) k =
        getStatusFor (failGeneration s j k msg) k :=
      getStatusFor_congr (by rw [hsf]) (by rw [hsf]) k
    rw [h1, failGeneration_status]
  · rw [hre, hsf]
    exact failGeneration_stacks s j k msg

/-- C6: replacing the product image resets all five stacks and empties the
log, clearing the selection; replacing the model image leaves stacks and log
untouched. -/
theorem claim_C6 (s : AppState) (url : String) (w hgt : Nat) :
    (∀ k, (runEffects s (handleFileUpload s .product url w hgt)).generationStacks.get k =
      { images := [], currentIndex := -1 }) ∧
    (runEffects s (handleFileUpload s .product url w hgt)).sessionGenerations = [] ∧
    (runEffects s (handleFileUpload s .product url w hgt)).activeGenerationId = none ∧
    (runEffects s (handleFileUpload s .model url w hgt)).generationStacks =
      s.generationStacks ∧
    (runEffects s (handleFileUpload s .model url w hgt)).sessionGenerations =
      s.sessionGenerations := by
  obtain ⟨b, a, hba⟩ := clearCurrentModeError_eq s
  have hP : handleFileUpload s .product url w hgt =
      { s with
        backgroundStatuses := b
        aiModelStatuses := a
        productImage := { url := some url, originalWidth := w, originalHeight := hgt }
        sessionGenerations := []
        activeGenerationId := none
        generationStacks := initialGenerationStacks } := by
    unfold handleFileUpload
    dsimp only
    rw [hba]
  have hM : handleFileUpload s .model url w hgt =
      { s with
        backgroundStatuses := b
        aiModelStatuses := a
        modelImage := { url := some url, originalWidth := w, originalHeight := hgt } } := by
    unfold handleFileUpload
    dsimp only
    rw [hba]
  obtain ⟨bp, ap, hreP⟩ :=
    runEffects_proj_none s (handleFileUpload s .product url w hgt) (by rw [hP])
  obtain ⟨bm, am, selm, hreM⟩ := runEffects_proj s (handleFileUpload s .model url w hgt)
  refine ⟨?_, ?_, ?_, ?_, ?_⟩
  · intro k
    rw [hreP, hP]
    cases k <;> rfl
  · rw [hreP, hP]
  · rw [hreP, hP]
  · rw [hreM, hM]
  · rw [hreM, hM]

/-- C7: on every stack reachable by pushes, undos and redos, `canUndo` holds
exactly when the cursor is at least 0 and `canRedo` exactly when the cursor is
before the last image; undo and redo at the stack ends are no-ops, and
neither ever modifies the images list. -/
theorem claim_C7 (ops : List StackOp) :
    ((ops.foldl applyStackOp initialGenerationStack).canUndo = true ↔
      0 ≤ (ops.foldl applyStackOp initialGenerationStack).currentIndex) ∧
    ((ops.foldl applyStackOp initialGenerationStack).canRedo = true ↔
      (ops.foldl applyStackOp initialGenerationStack).currentIndex <
        (((ops.foldl applyStackOp initialGenerationStack).images.length : Int) - 1)) ∧
    ((ops.foldl applyStackOp initialGenerationStack).canUndo = false →
      (ops.foldl applyStackOp initialGenerationStack).undoStep =
        ops.foldl applyStackOp initialGenerationStack) ∧
    ((ops.foldl applyStackOp initialGenerationStack).canRedo = false →
      (ops.foldl applyStackOp initialGenerationStack).redoStep =
        ops.foldl applyStackOp initialGenerationStack) ∧
    (ops.foldl applyStackOp initialGenerationStack).undoStep.images =
      (ops.foldl applyStackOp initialGenerationStack).images ∧
    (ops.foldl applyStackOp initialGenerationStack).redoStep.images =
      (ops.foldl applyStackOp initialGenerationStack).images :=
  genStack_props (ops.foldl applyStackOp initialGenerationStack)

/-- C7 witness: after a single undo on the fresh stack, `canUndo` is false
and the undo at the stack end is a no-op. -/
theorem claim_C7_witness :
    ([StackOp.undoOp].foldl applyStackOp initialGenerationStack).canUndo = false ∧
    ([StackOp.undoOp].foldl applyStackOp initialGenerationStack).undoStep =
      [StackOp.undoOp].foldl applyStackOp initialGenerationStack :=
  ⟨by decide, (claim_C7 [StackOp.undoOp]).2.2.1 (by decide)⟩

/-- C8: every stack satisfies `-1 <= currentIndex < images.length` initially
and after each operation that touches stacks — recording a success, undo,
redo, start over, product-image replacement — and hence in every reachable
state. -/
theorem claim_C8 :
    StacksInv initialAppState.generationStacks ∧
    (∀ s u j k mob, StacksInv s.generationStacks →
      StacksInv (recordNewGeneration s u j k mob).generationStacks) ∧
    (∀ s, StacksInv s.generationStacks → StacksInv (handleUndo s).generationStacks) ∧
    (∀ s, StacksInv s.generationStacks → StacksInv (handleRedo s).generationStacks) ∧
    (∀ s, StacksInv (handleStartOver s).generationStacks) ∧
    (∀ s url w hgt,
      StacksInv (handleFileUpload s .product url w hgt).generationStacks) ∧
    (∀ s, Reachable s → StacksInv s.generationStacks) := by
  refine ⟨stacksInv_initial, ?_, ?_, ?_, ?_, ?_, ?_⟩
  · intro s u j k mob hs
    obtain ⟨noti, sel, hrec, _⟩ := recordNewGeneration_eq s u j k mob
    rw [hrec]
    exact stacksInv_set hs (StackInv.push _ _)
  · intro s hs
    exact stacksInv_set hs (StackInv.undoStep (hs _))
  · intro s hs
    exact stacksInv_set hs (StackInv.redoStep (hs _))
  · intro s
    exact stacksInv_initial
  · intro s url w hgt
    exact stacksInv_initial
  · intro s h
    exact (reachable_appInv h).2.2.2.1

/-- C8 witness: the invariant holds in the initial state and survives an undo
there. -/
theorem claim_C8_witness :
    StacksInv initialAppState.generationStacks ∧
    StacksInv (handleUndo initialAppState).generationStacks :=
  ⟨by decide, claim_C8.2.2.1 initialAppState (by decide)⟩

/-- C4: in every state in which the claim's preconditions for generation are
unmet — the target feature is already loading, or a required source image or
non-empty prompt for the mode is missing — the generate operation (the click
of the button rendered with `disabled={!canGenerate}`, lines 1329/1374) is a
silent no-op: the state is unchanged, so no status changes, no record is
created, and no error is surfaced. -/
theorem claim_C4 (s : AppState)
    (h : (currentStatus s).isLoading ≠ LoadingStep.idle ∨
      (s.mode = Mode.background ∧ ¬ strTruthy s.productImage.url = true) ∨
      (s.mode = Mode.aiModel ∧ s.modelSource = ModelSource.ai ∧
        (¬ strTruthy s.productImage.url = true ∨ s.aiGeneratedPrompt = "")) ∨
      (s.mode = Mode.aiModel ∧ s.modelSource = ModelSource.custom ∧
        (¬ strTruthy s.productImage.url = true ∨ ¬ strTruthy s.modelImage.url = true ∨
          s.yourModelPrompt = ""))) :
    generateButtonClick s = s := by
  have hcg : canGenerate s = false := by
    unfold canGenerate
    by_cases hl : (currentStatus s).isLoading = LoadingStep.idle
    · rw [if_neg (not_not_intro hl)]
      rcases h with h1 | ⟨h2a, h2b⟩ | ⟨h3a, h3b, h3c⟩ | ⟨h4a, h4b, h4c⟩
      · exact absurd hl h1
      · rw [if_neg (fun hc => h2b hc.2), if_neg (by rw [h2a]; decide)]
      · rw [if_neg (fun hc => absurd (h3a.symm.trans hc.1) (by decide)), if_pos h3a, h3b]
        rcases h3c with hc | hc
        · have hft : strTruthy s.productImage.url = false := by simpa using hc
          simp [hft]
        · simp [hc]
      · rw [if_neg (fun hc => absurd (h4a.symm.trans hc.1) (by decide)), if_pos h4a, h4b]
        rcases h4c with hc | hc | hc
        · have hft : strTruthy s.productImage.url = false := by simpa using hc
          simp [hft]
        · have hft : strTruthy s.modelImage.url = false := by simpa using hc
          simp [hft]
        · simp [hc]
    · rw [if_pos hl]
  unfold generateButtonClick
  simp [hcg]

/-- C4 witness: in the initial state the product image is missing and the
generate click changes nothing. -/
theorem claim_C4_witness :
    (initialAppState.mode = Mode.background ∧
      ¬ strTruthy initialAppState.productImage.url = true) ∧
    generateButtonClick initialAppState = initialAppState :=
  ⟨by decide, claim_C4 initialAppState (Or.inr (Or.inl (by decide)))⟩

/-- C2 (amended): the implemented precedence never falls back from a set
selection to the stack: with a selection set, the canvas is the selected
record's image when that record exists and is done and nothing otherwise;
only with no selection set is it the active feature's stack image at the
cursor; otherwise none. -/
theorem claim_C2 (s : AppState) (h : Reachable s) :
    canvasDisplayUrl s = canvasDisplayUrlAmended s := by
  obtain ⟨-, -, -, -, -, hSrc⟩ := reachable_appInv h
  unfold canvasDisplayUrl canvasDisplayUrlAmended
  rcases hsel : s.activeGenerationId with _ | j
  · unfold stackCurrentImage
    rfl
  · rcases hfind : s.sessionGenerations.find? (fun g => g.id == j) with _ | g
    · simp only [hfind]
      rfl
    · simp only [hfind]
      obtain ⟨hgmem, -⟩ := find?_id_spec hfind
      rcases hst : g.status with _ | _
      · rw [if_neg (by decide : ¬ (RecordStatus.loading = RecordStatus.done))]
        show g.src = none
        exact hSrc g hgmem hst
      · rw [if_pos rfl]
        rfl

/-- C2 counterexample: in the reachable state `wFailed` — a dangling
selection left by a failed job while the background-color stack still holds
an image at its cursor — the implemented resolver shows nothing although the
spec's stated precedence falls back to the stack image. -/
theorem claim_C2_counterexample :
    canvasDisplayUrl wFailed ≠ canvasDisplayUrlSpec wFailed := by
  decide

/-- C2 witness: the amended precedence instantiated at the initial state. -/
theorem claim_C2_witness :
    canvasDisplayUrl initialAppState = canvasDisplayUrlAmended initialAppState :=
  claim_C2 initialAppState Reachable.init

/-- C10: a failure does not clear the explicit selection: it still holds the
removed record's id, that id no longer finds a record, and the display
resolver therefore yields no generated image (the caller falls back to the
raw product image), rather than falling back to the active feature's stack. -/
theorem claim_C10 (s : AppState) (j : Nat) (k : FeatureKey) (msg : String)
    (hsel : s.activeGenerationId = some j) :
    (runEffects s (failGeneration s j k msg)).activeGenerationId = some j ∧
    (runEffects s (failGeneration s j k msg)).sessionGenerations.find?
      (fun g => g.id == j) = none ∧
    canvasDisplayUrl (runEffects s (failGeneration s j k msg)) = none := by
  obtain ⟨b, a, hf⟩ := failGeneration_eq s j k msg
  have hre : runEffects s (failGeneration s j k msg) =
      syncCanvasEffect (failGeneration s j k msg) :=
    runEffects_same_deps _ _ (by rw [hf]) (by rw [hf]) (by rw [hf]) (by rw [hf])
  have hFsel : (failGeneration s j k msg).activeGenerationId = some j := by
    rw [hf]
    exact hsel
  have hFfind : (failGeneration s j k msg).sessionGenerations.find?
      (fun g => g.id == j) = none := by
    rw [hf]
    exact find?_filter_ne_id _ j
  have hsync : syncCanvasEffect (failGeneration s j k msg) = failGeneration s j k msg :=
    syncCanvasEffect_of_find_none hFsel hFfind
  rw [hre, hsync]
  refine ⟨hFsel, hFfind, ?_⟩
  unfold canvasDisplayUrl
  rw [hFsel]
  simp only [hFfind]
  rfl

/-- C10 witness: failing the second submission while it is the selection
leaves the dangling selection and an empty canvas. -/
theorem claim_C10_witness :
    wSecond.activeGenerationId = some 1 ∧
    ((runEffects wSecond (failGeneration wSecond 1 FeatureKey.backgroundColor
        "boom")).activeGenerationId = some 1 ∧
     (runEffects wSecond (failGeneration wSecond 1 FeatureKey.backgroundColor
        "boom")).sessionGenerations.find? (fun g => g.id == 1) = none ∧
     canvasDisplayUrl (runEffects wSecond (failGeneration wSecond 1
        FeatureKey.backgroundColor "boom")) = none) :=
  ⟨by decide, claim_C10 wSecond 1 FeatureKey.backgroundColor "boom" (by decide)⟩

/-- C9: selecting a done log record restores every control from its snapshot
(mode, background sub-mode, model source, background color, prompts, aspect
ratio, enhancer toggles, gender, prompt-builder selections), and the feature
key derived from the restored control values equals the record's stored
feature key — resubmitting would target the same feature as recorded. -/
theorem claim_C9 (s : AppState) (r : SessionGeneration) (pd md : Nat × Nat) (mob : Bool)
    (hreach : Reachable s) (hmem : r ∈ s.sessionGenerations)
    (_hdone : r.status = RecordStatus.done) :
    (runEffects s (handleSelectGeneration s r.id pd md mob)).mode = r.snapshot.mode ∧
    (runEffects s (handleSelectGeneration s r.id pd md mob)).backgroundSubMode =
      r.snapshot.backgroundSubMode ∧
    (runEffects s (handleSelectGeneration s r.id pd md mob)).modelSource =
      r.snapshot.modelSource ∧
    (runEffects s (handleSelectGeneration s r.id pd md mob)).backgroundColor =
      r.snapshot.backgroundColor ∧
    (runEffects s (handleSelectGeneration s r.id pd md mob)).scenePrompt =
      r.snapshot.scenePrompt ∧
    (runEffects s (handleSelectGeneration s r.id pd md mob)).aspectRatioVal =
      r.snapshot.aspectRatioVal ∧
    (runEffects s (handleSelectGeneration s r.id pd md mob)).promptEnhancer =
      r.snapshot.promptEnhancer ∧
    (runEffects s (handleSelectGeneration s r.id pd md mob)).aiGeneratedPrompt =
      r.snapshot.aiGeneratedPrompt ∧
    (runEffects s (handleSelectGeneration s r.id pd md mob)).yourModelPrompt =
      r.snapshot.yourModelPrompt ∧
    (runEffects s (handleSelectGeneration s r.id pd md mob)).gender = r.snapshot.gender ∧
    (runEffects s (handleSelectGeneration s r.id pd md mob)).promptBuilder =
      r.snapshot.promptBuilder ∧
    (runEffects s (handleSelectGeneration s r.id pd md mob)).aiGeneratedPromptEnhancer =
      r.snapshot.aiGeneratedPromptEnhancer ∧
    (runEffects s (handleSelectGeneration s r.id pd md mob)).yourModelPromptEnhancer =
      r.snapshot.yourModelPromptEnhancer ∧
    getCurrentFeatureKey (runEffects s (handleSelectGeneration s r.id pd md mob)) =
      r.featureKey := by
  obtain ⟨-, -, hSnap, -, hIds, -⟩ := reachable_appInv hreach
  have hfind : s.sessionGenerations.find? (fun gen => gen.id == r.id) = some r :=
    find?_self_of_mem hIds.1 hmem
  obtain ⟨b, a, sel, hre⟩ := runEffects_proj s (handleSelectGeneration s r.id pd md mob)
  rw [hre]
  unfold handleSelectGeneration
  rw [hfind]
  dsimp only
  split <;> split <;> split <;>
    exact ⟨rfl, rfl, rfl, rfl, rfl, rfl, rfl, rfl, rfl, rfl, rfl, rfl, rfl,
      (hSnap r hmem).symm⟩

/-- C9 witness: selecting the completed background-color record in `wDone`
restores its snapshot and derives the stored feature key. -/
theorem claim_C9_witness :
    wDoneRec ∈ wDone.sessionGenerations ∧ wDoneRec.status = RecordStatus.done ∧
    ((runEffects wDone (handleSelectGeneration wDone wDoneRec.id (100, 80) (0, 0)
        false)).mode = wDoneRec.snapshot.mode ∧
     (runEffects wDone (handleSelectGeneration wDone wDoneRec.id (100, 80) (0, 0)
        false)).backgroundSubMode = wDoneRec.snapshot.backgroundSubMode ∧
     (runEffects wDone (handleSelectGeneration wDone wDoneRec.id (100, 80) (0, 0)
        false)).modelSource = wDoneRec.snapshot.modelSource ∧
     (runEffects wDone (handleSelectGeneration wDone wDoneRec.id (100, 80) (0, 0)
        false)).backgroundColor = wDoneRec.snapshot.backgroundColor ∧
     (runEffects wDone (handleSelectGeneration wDone wDoneRec.id (100, 80) (0, 0)
        false)).scenePrompt = wDoneRec.snapshot.scenePrompt ∧
     (runEffects wDone (handleSelectGeneration wDone wDoneRec.id (100, 80) (0, 0)
        false)).aspectRatioVal = wDoneRec.snapshot.aspectRatioVal ∧
     (runEffects wDone (handleSelectGeneration wDone wDoneRec.id (100, 80) (0, 0)
        false)).promptEnhancer = wDoneRec.snapshot.promptEnhancer ∧
     (runEffects wDone (handleSelectGeneration wDone wDoneRec.id (100, 80) (0, 0)
        false)).aiGeneratedPrompt = wDoneRec.snapshot.aiGeneratedPrompt ∧
     (runEffects wDone (handleSelectGeneration wDone wDoneRec.id (100, 80) (0, 0)
        false)).yourModelPrompt = wDoneRec.snapshot.yourModelPrompt ∧
     (runEffects wDone (handleSelectGeneration wDone wDoneRec.id (100, 80) (0, 0)
        false)).gender = wDoneRec.snapshot.gender ∧
     (runEffects wDone (handleSelectGeneration wDone wDoneRec.id (100, 80) (0, 0)
        false)).promptBuilder = wDoneRec.snapshot.promptBuilder ∧
     (runEffects wDone (handleSelectGeneration wDone wDoneRec.id (100, 80) (0, 0)
        false)).aiGeneratedPromptEnhancer = wDoneRec.snapshot.aiGeneratedPromptEnhancer ∧
     (runEffects wDone (handleSelectGeneration wDone wDoneRec.id (100, 80) (0, 0)
        false)).yourModelPromptEnhancer = wDoneRec.snapshot.yourModelPromptEnhancer ∧
     getCurrentFeatureKey (runEffects wDone (handleSelectGeneration wDone wDoneRec.id
        (100, 80) (0, 0) false)) = wDoneRec.featureKey) :=
  ⟨by decide, by decide,
    claim_C9 wDone wDoneRec (100, 80) (0, 0) false reachable_wDone (by decide) (by decide)⟩

/-- C1: when a job for feature key K completes successfully while the feature
key active at completion time differs from K, the completion leaves the
resolved canvas image unchanged, but still appends the result to K's
generation stack (truncate-then-append) and marks the job's session-log
record done with the result image. -/
theorem claim_C1 (s : AppState) (r : SessionGeneration) (u : String) (mob : Bool)
    (hreach : Reachable s) (hmem : r ∈ s.sessionGenerations)
    (hload : r.status = RecordStatus.loading)
    (hkey : r.featureKey ≠ getCurrentFeatureKey s) :
    canvasDisplayUrl (runEffects s (completeGeneration s u r.id r.featureKey mob)) =
      canvasDisplayUrl s ∧
    ((runEffects s (completeGeneration s u r.id r.featureKey mob)).generationStacks.get
        r.featureKey).images =
      (s.generationStacks.get r.featureKey).images.take
        ((s.generationStacks.get r.featureKey).currentIndex + 1).toNat ++ [u] ∧
    (∀ g ∈ (runEffects s (completeGeneration s u r.id r.featureKey
        mob)).sessionGenerations, g.id = r.id →
      g.status = RecordStatus.done ∧ g.src = some u) ∧
    (∃ g ∈ (runEffects s (completeGeneration s u r.id r.featureKey
        mob)).sessionGenerations, g.id = r.id) := by
  obtain ⟨hStable, hSel, hSnap, hStacks, hIds, hSrc⟩ := reachable_appInv hreach
  obtain ⟨noti, sel, hrec, hdisj⟩ := recordNewGeneration_eq s u r.id r.featureKey mob
  rcases hdisj with ⟨hk, -⟩ | ⟨-, hseq⟩
  · exact absurd hk hkey
  obtain ⟨b, a, hcl⟩ :=
    clearLoadingFor_eq (recordNewGeneration s u r.id r.featureKey mob) r.featureKey
  have hH : completeGeneration s u r.id r.featureKey mob =
      { s with
        sessionGenerations := s.sessionGenerations.map (completeRecord u r.id)
        newHistoryNotification := noti
        generationStacks :=
          s.generationStacks.set r.featureKey ((s.generationStacks.get r.featureKey).push u)
        backgroundStatuses := b
        aiModelStatuses := a } := by
    unfold completeGeneration
    rw [hcl, hrec, hseq]
  have hHsel : (completeGeneration s u r.id r.featureKey mob).activeGenerationId =
      s.activeGenerationId := by rw [hH]
  have hHtab : (completeGeneration s u r.id r.featureKey mob).activeTab = s.activeTab := by
    rw [hH]
  have hHlog : (completeGeneration s u r.id r.featureKey mob).sessionGenerations =
      s.sessionGenerations.map (completeRecord u r.id) := by rw [hH]
  have hHstacks : (completeGeneration s u r.id r.featureKey mob).generationStacks =
      s.generationStacks.set r.featureKey ((s.generationStacks.get r.featureKey).push u) := by
    rw [hH]
  have hHkey : getCurrentFeatureKey (completeGeneration s u r.id r.featureKey mob) =
      getCurrentFeatureKey s := by
    rw [hH]
    rfl
  have hre : runEffects s (completeGeneration s u r.id r.featureKey mob) =
      syncCanvasEffect (completeGeneration s u r.id r.featureKey mob) :=
    runEffects_same_deps _ _ (by rw [hH]) (by rw [hH]) (by rw [hH]) (by rw [hH])
  have hselne : s.activeGenerationId ≠ some r.id := fun hcon =>
    hkey (hSel r hmem hload hcon)
  have hsync : syncCanvasEffect (completeGeneration s u r.id r.featureKey mob) =
      completeGeneration s u r.id r.featureKey mob := by
    rcases syncCanvasEffect_cases (completeGeneration s u r.id r.featureKey mob) with
      hc | ⟨htab, j, g, hselH, hfindH, hneH, -⟩
    · exact hc
    · exfalso
      rw [hHsel] at hselH
      rw [hHlog, find?_map_id_pres _ _ (completeRecord_id u r.id) j] at hfindH
      rcases hfs : s.sessionGenerations.find? (fun g => g.id == j) with _ | g0
      · rw [hfs] at hfindH
        cases hfindH
      · rw [hfs] at hfindH
        injection hfindH with hg
        obtain ⟨hg0mem, hg0id⟩ := find?_id_spec hfs
        have hjr : j ≠ r.id := fun hc => hselne (hc ▸ hselH)
        have hg0eq : completeRecord u r.id g0 = g0 :=
          completeRecord_of_ne u (by rw [hg0id]; exact hjr)
        have hkeyg0 : g0.featureKey = getCurrentFeatureKey s :=
          stable_elim hStable (hHtab ▸ htab) hselH hfs
        apply hneH
        rw [← hg, hg0eq, hHkey]
        exact hkeyg0
  rw [hre, hsync]
  refine ⟨?_, ?_, ?_, ?_⟩
  · unfold canvasDisplayUrl
    rw [hHsel, hHkey, hHlog, hHstacks]
    rcases hsel : s.activeGenerationId with _ | j
    · dsimp only
      rw [GenerationStacks.get_set_of_ne _ _ (Ne.symm hkey)]
    · dsimp only
      rw [find?_map_id_pres _ _ (completeRecord_id u r.id) j]
      rcases hfs : s.sessionGenerations.find? (fun g => g.id == j) with _ | g0
      · rw [hfs]
        rfl
      · rw [hfs]
        obtain ⟨hg0mem, hg0id⟩ := find?_id_spec hfs
        have hjr : j ≠ r.id := fun hc => hselne (hc ▸ hsel)
        dsimp only [Option.map, Option.bind]
        rw [completeRecord_of_ne u (by rw [hg0id]; exact hjr)]
  · rw [hHstacks, GenerationStacks.get_set_self]
    unfold GenerationStack.push
    dsimp only
    rw [jsSlice_of_nonneg _ (by have := (hStacks r.featureKey).1; omega)]
  · intro g hg hgid
    rw [hHlog] at hg
    obtain ⟨g0, hg0, hg0eq⟩ := List.mem_map.mp hg
    by_cases h0 : g0.id = r.id
    · rw [← hg0eq, completeRecord_of_eq u h0]
      exact ⟨rfl, rfl⟩
    · rw [← hg0eq, completeRecord_of_ne u h0] at hgid
      exact absurd hgid h0
  · refine ⟨completeRecord u r.id r, ?_, completeRecord_id u r.id r⟩
    rw [hHlog]
    exact List.mem_map_of_mem _ hmem

/-- C1 witness: the background-color job pending in `wSwitched` (whose active
feature key is `ai-model-ai`) completes without changing the canvas, while
its stack and log record are updated. -/
theorem claim_C1_witness :
    wPending ∈ wSwitched.sessionGenerations ∧
    wPending.status = RecordStatus.loading ∧
    wPending.featureKey ≠ getCurrentFeatureKey wSwitched ∧
    (canvasDisplayUrl (runEffects wSwitched (completeGeneration wSwitched "res2.png"
        wPending.id wPending.featureKey false)) = canvasDisplayUrl wSwitched ∧
     ((runEffects wSwitched (completeGeneration wSwitched "res2.png" wPending.id
        wPending.featureKey false)).generationStacks.get wPending.featureKey).images =
      (wSwitched.generationStacks.get wPending.featureKey).images.take
        ((wSwitched.generationStacks.get wPending.featureKey).currentIndex + 1).toNat ++
        ["res2.png"] ∧
     (∀ g ∈ (runEffects wSwitched (completeGeneration wSwitched "res2.png" wPending.id
        wPending.featureKey false)).sessionGenerations, g.id = wPending.id →
        g.status = RecordStatus.done ∧ g.src = some "res2.png") ∧
     (∃ g ∈ (runEffects wSwitched (completeGeneration wSwitched "res2.png" wPending.id
        wPending.featureKey false)).sessionGenerations, g.id = wPending.id)) :=
  ⟨by decide, by decide, by decide,
    claim_C1 wSwitched wPending "res2.png" false reachable_wSwitched (by decide) (by decide)
      (by decide)⟩

end ProductPhotography
